import Mathlib

/-!
Verification of the survey-edit reconciliation logic of the curriculum
services front end.

The definitions below are a shallow embedding of the client-side survey
editor code:

* the form data model (SurveyEntryForm, SurveyChoiceForm, SurveyGridRowForm,
  SurveySectionForm) from lib/hooks/survey/survey-answers.ts;
* validateSurveyEntry, transformResponseToForm and flattenEntriesForPayload
  from the same file;
* the change detectors (hasEntryChanged, hasChoiceChanged, hasGridRowChanged,
  hasSectionChanged), validateForm, handleSaveCurrentQuestion and the
  edit-mode part of handleSubmit from the CreateSurveyForm component.

JavaScript optional fields are modelled with Option; JavaScript string
truthiness (undefined and the empty string are falsy) is modelled by
strTruthy; a File object attached to an image slot is modelled by FileV
(a File is always truthy, and a JSON deep copy turns it into a plain
object that is no longer an instance of File, which the embedding models
by clearing the slot, since no code path ever reads an image file slot
out of a snapshot).
-/

/-- Model of a DOM File object attached to an image field. -/
structure FileV where
  content : String
deriving DecidableEq

/-- The four survey question types; Radio stands for the RADIO type of
the source. -/
inductive SurveyQuestionType where
  | TEXT
  | Radio
  | CHECKBOX
  | GRID
deriving DecidableEq

/-- The survey types. -/
inductive SurveyType where
  | BASELINE
  | ENDLINE
  | OTHER
deriving DecidableEq

/-- JavaScript truthiness of an optional string: undefined and the empty
string are falsy. -/
def strTruthy : Option String → Bool
  | none => false
  | some s => s ≠ ""

/-- JavaScript truthiness of an optional boolean: only true is truthy. -/
def boolTruthy : Option Bool → Bool
  | some true => true
  | _ => false

/-- JavaScript expression x or-else d for an optional number where 0 is falsy. -/
def numOr (o : Option Nat) (d : Nat) : Nat :=
  match o with
  | none => d
  | some n => if n = 0 then d else n

/-- JavaScript expression x or-else d for an optional string where the empty
string is falsy. -/
def strOr (o : Option String) (d : String) : String :=
  match o with
  | none => d
  | some s => if s = "" then d else s

/-- JavaScript expression x or-else-undefined for an optional string: the
empty string collapses to undefined. -/
def strOrNone (o : Option String) : Option String :=
  if strTruthy o then o else none

/-- String.fromCharCode(65 + i): the letter used for choice orders. -/
def letterFor (i : Nat) : String :=
  String.singleton (Char.ofNat (65 + i))

/-- Grid row form state (SurveyGridRowForm in survey-answers.ts). -/
structure SurveyGridRowForm where
  id : Option String
  rowNumber : Nat
  rowText : String
  rowImage : Option String
  rowImageFile : Option FileV
deriving DecidableEq

mutual

/-- Entry (question) form state (SurveyEntryForm in survey-answers.ts).
Fields in order: clientId, question, questionNumber, questionImage,
questionImageFile, questionType, isRequired, choices, gridRows,
hasTextInput, isFollowUp, parentQuestionClientId, triggerChoiceClientIds,
parentQuestionId, triggerChoiceIds, id. -/
inductive SurveyEntryForm where
  | mk
      (clientId : String)
      (question : String)
      (questionNumber : Option Nat)
      (questionImage : Option String)
      (questionImageFile : Option FileV)
      (questionType : SurveyQuestionType)
      (isRequired : Bool)
      (choices : List SurveyChoiceForm)
      (gridRows : List SurveyGridRowForm)
      (hasTextInput : Option Bool)
      (isFollowUp : Bool)
      (parentQuestionClientId : Option String)
      (triggerChoiceClientIds : Option (List String))
      (parentQuestionId : Option String)
      (triggerChoiceIds : Option (List String))
      (id : Option String)

/-- Choice form state (SurveyChoiceForm in survey-answers.ts).
Fields in order: clientId, choiceOrder, choiceText, choiceImage,
choiceImageFile, id, hasTextInput, hasFollowUp, followUpQuestion. -/
inductive SurveyChoiceForm where
  | mk
      (clientId : String)
      (choiceOrder : Option String)
      (choiceText : String)
      (choiceImage : Option String)
      (choiceImageFile : Option FileV)
      (id : Option String)
      (hasTextInput : Option Bool)
      (hasFollowUp : Option Bool)
      (followUpQuestion : Option SurveyEntryForm)

end

def SurveyEntryForm.clientId : SurveyEntryForm → String
  | .mk v _ _ _ _ _ _ _ _ _ _ _ _ _ _ _ => v

def SurveyEntryForm.question : SurveyEntryForm → String
  | .mk _ v _ _ _ _ _ _ _ _ _ _ _ _ _ _ => v

def SurveyEntryForm.questionNumber : SurveyEntryForm → Option Nat
  | .mk _ _ v _ _ _ _ _ _ _ _ _ _ _ _ _ => v

def SurveyEntryForm.questionImage : SurveyEntryForm → Option String
  | .mk _ _ _ v _ _ _ _ _ _ _ _ _ _ _ _ => v

def SurveyEntryForm.questionImageFile : SurveyEntryForm → Option FileV
  | .mk _ _ _ _ v _ _ _ _ _ _ _ _ _ _ _ => v

def SurveyEntryForm.questionType : SurveyEntryForm → SurveyQuestionType
  | .mk _ _ _ _ _ v _ _ _ _ _ _ _ _ _ _ => v

def SurveyEntryForm.isRequired : SurveyEntryForm → Bool
  | .mk _ _ _ _ _ _ v _ _ _ _ _ _ _ _ _ => v

def SurveyEntryForm.choices : SurveyEntryForm → List SurveyChoiceForm
  | .mk _ _ _ _ _ _ _ v _ _ _ _ _ _ _ _ => v

def SurveyEntryForm.gridRows : SurveyEntryForm → List SurveyGridRowForm
  | .mk _ _ _ _ _ _ _ _ v _ _ _ _ _ _ _ => v

def SurveyEntryForm.hasTextInput : SurveyEntryForm → Option Bool
  | .mk _ _ _ _ _ _ _ _ _ v _ _ _ _ _ _ => v

def SurveyEntryForm.isFollowUp : SurveyEntryForm → Bool
  | .mk _ _ _ _ _ _ _ _ _ _ v _ _ _ _ _ => v

def SurveyEntryForm.parentQuestionClientId : SurveyEntryForm → Option String
  | .mk _ _ _ _ _ _ _ _ _ _ _ v _ _ _ _ => v

def SurveyEntryForm.triggerChoiceClientIds : SurveyEntryForm → Option (List String)
  | .mk _ _ _ _ _ _ _ _ _ _ _ _ v _ _ _ => v

def SurveyEntryForm.parentQuestionId : SurveyEntryForm → Option String
  | .mk _ _ _ _ _ _ _ _ _ _ _ _ _ v _ _ => v

def SurveyEntryForm.triggerChoiceIds : SurveyEntryForm → Option (List String)
  | .mk _ _ _ _ _ _ _ _ _ _ _ _ _ _ v _ => v

def SurveyEntryForm.id : SurveyEntryForm → Option String
  | .mk _ _ _ _ _ _ _ _ _ _ _ _ _ _ _ v => v

def SurveyChoiceForm.clientId : SurveyChoiceForm → String
  | .mk v _ _ _ _ _ _ _ _ => v

def SurveyChoiceForm.choiceOrder : SurveyChoiceForm → Option String
  | .mk _ v _ _ _ _ _ _ _ => v

def SurveyChoiceForm.choiceText : SurveyChoiceForm → String
  | .mk _ _ v _ _ _ _ _ _ => v

def SurveyChoiceForm.choiceImage : SurveyChoiceForm → Option String
  | .mk _ _ _ v _ _ _ _ _ => v

def SurveyChoiceForm.choiceImageFile : SurveyChoiceForm → Option FileV
  | .mk _ _ _ _ v _ _ _ _ => v

def SurveyChoiceForm.id : SurveyChoiceForm → Option String
  | .mk _ _ _ _ _ v _ _ _ => v

def SurveyChoiceForm.hasTextInput : SurveyChoiceForm → Option Bool
  | .mk _ _ _ _ _ _ v _ _ => v

def SurveyChoiceForm.hasFollowUp : SurveyChoiceForm → Option Bool
  | .mk _ _ _ _ _ _ _ v _ => v

def SurveyChoiceForm.followUpQuestion : SurveyChoiceForm → Option SurveyEntryForm
  | .mk _ _ _ _ _ _ _ _ v => v

/-- Section form state (SurveySectionForm in survey-answers.ts). -/
structure SurveySectionForm where
  title : String
  description : Option String
  sectionNumber : Option Nat
  entries : List SurveyEntryForm
  id : Option String

/-!
Change detectors from CreateSurveyForm (edit-mode change detection helpers).
A comparison with JavaScript strict inequality on an optional field is an
Option disequality; a freshly attached File makes the instanceof-File test
true, which the embedding renders as isSome of the file slot, because the
working tree holds either a File or undefined there.
-/

/-- Source hasEntryChanged: text, type, required flag, text-input flag, a
freshly attached image file, or a differing image URL count as changed. -/
def hasEntryChanged (current original : SurveyEntryForm) : Bool :=
  (current.question != original.question) ||
  (current.questionType != original.questionType) ||
  (current.isRequired != original.isRequired) ||
  (current.hasTextInput != original.hasTextInput) ||
  current.questionImageFile.isSome ||
  (current.questionImage != original.questionImage)

/-- Source hasChoiceChanged. -/
def hasChoiceChanged (current original : SurveyChoiceForm) : Bool :=
  (current.choiceText != original.choiceText) ||
  (current.choiceOrder != original.choiceOrder) ||
  (current.hasTextInput != original.hasTextInput) ||
  current.choiceImageFile.isSome ||
  (current.choiceImage != original.choiceImage)

/-- Source hasGridRowChanged. -/
def hasGridRowChanged (current original : SurveyGridRowForm) : Bool :=
  (current.rowText != original.rowText) ||
  (current.rowNumber != original.rowNumber) ||
  current.rowImageFile.isSome ||
  (current.rowImage != original.rowImage)

/-- Source hasSectionChanged: title or description differs. -/
def hasSectionChanged (current original : SurveySectionForm) : Bool :=
  (current.title != original.title) || (current.description != original.description)

/-!
Model of the JSON.parse(JSON.stringify(x)) deep copy used for snapshots.
String, number, boolean and nested object and array fields survive the
round trip unchanged; a File object serializes to a plain empty object,
which is never again an instance of File. No code path reads an image
file slot out of a snapshot, so the copy is modelled as clearing the
three file slots and keeping every other field.
-/

/-- Deep copy of a grid row: the file slot does not survive JSON. -/
def clearFilesRow : SurveyGridRowForm → SurveyGridRowForm
  | ⟨i, n, t, img, _⟩ => ⟨i, n, t, img, none⟩

mutual

/-- Deep copy of an entry: file slots do not survive JSON. -/
def clearFilesEntry : SurveyEntryForm → SurveyEntryForm
  | .mk cid q qn qi _ qt ir cs grs hti ifu pqc tcc pqi tci i =>
      .mk cid q qn qi none qt ir (clearFilesChoices cs) (grs.map clearFilesRow)
        hti ifu pqc tcc pqi tci i

/-- Deep copy of a list of choices. -/
def clearFilesChoices : List SurveyChoiceForm → List SurveyChoiceForm
  | [] => []
  | c :: cs => clearFilesChoice c :: clearFilesChoices cs

/-- Deep copy of a choice. -/
def clearFilesChoice : SurveyChoiceForm → SurveyChoiceForm
  | .mk cid co ct ci _ i hti hf fu =>
      .mk cid co ct ci none i hti hf (clearFilesFollowUp fu)

/-- Deep copy of an optional nested follow-up entry. -/
def clearFilesFollowUp : Option SurveyEntryForm → Option SurveyEntryForm
  | none => none
  | some f => some (clearFilesEntry f)

end

/-- Deep copy of a section. -/
def clearFilesSection (s : SurveySectionForm) : SurveySectionForm :=
  { s with entries := s.entries.map clearFilesEntry }

/-- Model of JSON.parse(JSON.stringify(sections)). -/
def deepCopySections (l : List SurveySectionForm) : List SurveySectionForm :=
  l.map clearFilesSection

/-!
Server response types (Layer 3 of survey-answers.ts). A string-or-null
field and an optional string field are both modelled as Option String.
-/

/-- SurveyChoiceResponse. -/
structure SurveyChoiceResponse where
  id : String
  choiceOrder : String
  choiceText : String
  choiceImageUrl : Option String
  hasTextInput : Option Bool
deriving DecidableEq

/-- SurveyGridRowResponse. -/
structure SurveyGridRowResponse where
  id : Option String
  rowNumber : Nat
  rowText : String
  rowImageUrl : Option String
deriving DecidableEq

/-- SurveyEntryResponse. -/
structure SurveyEntryResponse where
  id : String
  questionNumber : Nat
  question : String
  questionImageUrl : Option String
  questionType : SurveyQuestionType
  isRequired : Bool
  choices : List SurveyChoiceResponse
  gridRows : List SurveyGridRowResponse
  hasTextInput : Option Bool
  isFollowUp : Bool
  parentQuestionId : Option String
  triggerChoiceIds : Option (List String)
deriving DecidableEq

/-- SurveySectionResponse. -/
structure SurveySectionResponse where
  id : String
  title : String
  description : Option String
  sectionNumber : Nat
  entries : List SurveyEntryResponse
deriving DecidableEq

/-- SurveyDetailResponse. -/
structure SurveyDetailResponse where
  id : String
  name : String
  type : Option SurveyType
  description : String
  sections : List SurveySectionResponse
deriving DecidableEq

/-!
transformResponseToForm from survey-answers.ts: rebuild the editing tree
from the flat per-section entry list, nesting each follow-up entry under
the first choice whose id its trigger set contains.
-/

/-- Transform one grid row of a response into form state. -/
def transformRow (r : SurveyGridRowResponse) : SurveyGridRowForm :=
  { id := r.id
    rowNumber := r.rowNumber
    rowText := r.rowText
    rowImage := strOrNone r.rowImageUrl
    rowImageFile := none }

/-- Transform one choice of a nested follow-up question: follow-ups of
follow-ups are never reconstructed, so hasFollowUp is false. -/
def transformPlainChoice (fc : SurveyChoiceResponse) : SurveyChoiceForm :=
  .mk fc.id (some fc.choiceOrder) fc.choiceText (strOrNone fc.choiceImageUrl)
    none (some fc.id) (some (fc.hasTextInput.getD false)) (some false) none

/-- Transform a follow-up entry nested under the choice with id choiceId of
the parent entry with id entryId. -/
def transformFollowUpEntry (entryId choiceId : String) (followUp : SurveyEntryResponse) :
    SurveyEntryForm :=
  .mk followUp.id followUp.question (some followUp.questionNumber)
    (strOrNone followUp.questionImageUrl) none followUp.questionType
    followUp.isRequired (followUp.choices.map transformPlainChoice)
    (followUp.gridRows.map transformRow) (some (followUp.hasTextInput.getD false))
    true (some entryId) (some [choiceId]) (strOrNone followUp.parentQuestionId)
    followUp.triggerChoiceIds (some followUp.id)

/-- The predicate selecting the follow-up entries relevant to one choice:
same parent entry id and the choice id is in the trigger set. -/
def relevantFollowUpP (entryId choiceId : String) (fu : SurveyEntryResponse) : Bool :=
  (fu.parentQuestionId == some entryId) && (fu.triggerChoiceIds.getD []).contains choiceId

/-- Transform one choice of a main entry, nesting the first follow-up of
followUpEntries whose trigger set contains this choice. -/
def transformChoice (followUpEntries : List SurveyEntryResponse) (entryId : String)
    (choice : SurveyChoiceResponse) : SurveyChoiceForm :=
  let relevant := followUpEntries.filter (relevantFollowUpP entryId choice.id)
  .mk choice.id (some choice.choiceOrder) choice.choiceText
    (strOrNone choice.choiceImageUrl) none (some choice.id)
    (some (choice.hasTextInput.getD false)) (some (decide (0 < relevant.length)))
    (relevant.head?.map (transformFollowUpEntry entryId choice.id))

/-- Transform one main (non follow-up) entry. -/
def transformMainEntry (followUpEntries : List SurveyEntryResponse)
    (entry : SurveyEntryResponse) : SurveyEntryForm :=
  .mk entry.id entry.question (some entry.questionNumber)
    (strOrNone entry.questionImageUrl) none entry.questionType entry.isRequired
    (entry.choices.map (transformChoice followUpEntries entry.id))
    (entry.gridRows.map transformRow) (some (entry.hasTextInput.getD false))
    false none none none none (some entry.id)

/-- Transform one section of the response. -/
def transformSection (sec : SurveySectionResponse) : SurveySectionForm :=
  let mainEntries := sec.entries.filter (fun e => !e.isFollowUp)
  let followUpEntries := sec.entries.filter (fun e => e.isFollowUp)
  { title := sec.title
    description := strOrNone sec.description
    sectionNumber := some sec.sectionNumber
    entries := mainEntries.map (transformMainEntry followUpEntries)
    id := some sec.id }

/-- Source transformResponseToForm. -/
def transformResponseToForm (response : SurveyDetailResponse) : List SurveySectionForm :=
  response.sections.map transformSection

/-!
validateSurveyEntry from survey-answers.ts, returning the error list; the
entry is valid exactly when the list is empty.
-/

/-- Model of the JavaScript String.prototype.trim: strip whitespace from
both ends, written with structural recursion so that it evaluates. -/
def jsTrim (s : String) : String :=
  ⟨((s.data.dropWhile Char.isWhitespace).reverse.dropWhile Char.isWhitespace).reverse⟩

/-- Source validateSurveyEntry: the structural error list of one entry. -/
def validateSurveyEntry (entry : SurveyEntryForm) : List String :=
  (if jsTrim entry.question = "" then ["Question text is required"] else []) ++
  (if entry.questionType = .Radio ∨ entry.questionType = .CHECKBOX then
    (if entry.choices.length < 2 then ["At least 2 choices are required"] else []) ++
    (if 0 < (entry.choices.filter (fun c =>
        jsTrim c.choiceText = "" && !strTruthy c.choiceImage && c.choiceImageFile.isNone)).length
      then ["All choices must have text or an image"] else [])
  else []) ++
  (if entry.questionType = .GRID then
    (if entry.choices.length < 2 then ["At least 2 column options are required"] else []) ++
    (if entry.gridRows.length < 2 then ["At least 2 row options are required"] else [])
  else []) ++
  (if entry.isFollowUp then
    (if !strTruthy entry.parentQuestionClientId && !strTruthy entry.parentQuestionId then
      ["Follow-up question must have a parent question"] else []) ++
    (if (entry.triggerChoiceClientIds.getD []).isEmpty
        && (entry.triggerChoiceIds.getD []).isEmpty then
      ["Follow-up question must have at least one trigger choice"] else [])
  else [])

/-!
Editor state of the CreateSurveyForm component in edit mode: the working
tree (sections), the snapshot baseline and the original counts recorded
when the survey was loaded.
-/

/-- The component state that the save logic reads and writes. -/
structure FormState where
  surveyName : String
  sections : List SurveySectionForm
  originalSectionsSnapshot : List SurveySectionForm
  originalSectionsCount : Nat
  originalQuestionCounts : List Nat

/-!
validateForm from CreateSurveyForm: walks the tree and surfaces the first
violated rule as a single toast message (modelled as Option String, none
meaning the form is valid).
-/

/-- Validation of the follow-up questions nested in the choices of one
question: first error wins. -/
def validateFollowUpsOfChoices : List SurveyChoiceForm → Option String
  | [] => none
  | c :: cs =>
    match boolTruthy c.hasFollowUp, c.followUpQuestion with
    | true, some f =>
      match validateSurveyEntry f with
      | e :: _ => some ("Follow-up question for \"" ++ c.choiceText ++ "\": " ++ e)
      | [] => validateFollowUpsOfChoices cs
    | _, _ => validateFollowUpsOfChoices cs

/-- Validation of the questions of one section, first error wins; qIdx is
the zero-based index of the first list element. -/
def validateEntriesFrom (title : String) (qIdx : Nat) : List SurveyEntryForm → Option String
  | [] => none
  | q :: qs =>
    match validateSurveyEntry q with
    | e :: _ =>
      some ("Section \"" ++ title ++ "\", Question " ++ toString (qIdx + 1) ++ ": " ++ e)
    | [] =>
      match validateFollowUpsOfChoices q.choices with
      | some msg => some msg
      | none => validateEntriesFrom title (qIdx + 1) qs

/-- Validation of the sections, first error wins; sIdx is the zero-based
index of the first list element. -/
def validateSectionsFrom (sIdx : Nat) : List SurveySectionForm → Option String
  | [] => none
  | s :: ss =>
    if jsTrim s.title = "" then
      some ("Section " ++ toString (sIdx + 1) ++ " title is required")
    else if s.entries.isEmpty then
      some ("Section \"" ++ s.title ++ "\" must have at least one question")
    else
      match validateEntriesFrom s.title 0 s.entries with
      | some msg => some msg
      | none => validateSectionsFrom (sIdx + 1) ss

/-- Source validateForm: the first validation toast, none when valid. -/
def validateForm (st : FormState) : Option String :=
  if jsTrim st.surveyName = "" then some "Survey name is required"
  else if st.sections.isEmpty then some "At least one section is required"
  else validateSectionsFrom 0 st.sections

/-!
flattenEntriesForPayload from survey-answers.ts: emit each main entry
followed by the follow-up entries extracted from its choices, assigning
questionNumber from a counter that starts at 1 and increments once per
emitted item.
-/

/-- Flat choice payload inside a flattened entry. -/
structure FlatChoicePayload where
  clientId : String
  choiceOrder : String
  choiceText : String
  choiceImage : Option String
  choiceImageFile : Option FileV
deriving DecidableEq

/-- Flat grid row payload inside a flattened entry. -/
structure FlatRowPayload where
  rowNumber : Nat
  rowText : String
  rowImage : Option String
  rowImageFile : Option FileV
deriving DecidableEq

/-- One element of the flattened entry list sent to the bulk APIs. -/
structure FlatEntryPayload where
  clientId : String
  question : String
  questionNumber : Nat
  questionImage : Option String
  questionImageFile : Option FileV
  questionType : SurveyQuestionType
  isRequired : Bool
  hasTextInput : Bool
  choices : List FlatChoicePayload
  gridRows : List FlatRowPayload
  isFollowUp : Bool
  parentQuestionClientId : Option String
  triggerChoiceClientIds : Option (List String)
deriving DecidableEq

/-- JavaScript or-else for a non-optional number where 0 is falsy. -/
def natOr (n d : Nat) : Nat :=
  if n = 0 then d else n

/-- Flat payload of one choice at index ci. -/
def flatChoiceOf (ci : Nat) (c : SurveyChoiceForm) : FlatChoicePayload :=
  { clientId := c.clientId
    choiceOrder := strOr c.choiceOrder (letterFor ci)
    choiceText := c.choiceText
    choiceImage := c.choiceImage
    choiceImageFile := c.choiceImageFile }

/-- Index-aware map of flatChoiceOf. -/
def flatChoicesGo (ci : Nat) : List SurveyChoiceForm → List FlatChoicePayload
  | [] => []
  | c :: cs => flatChoiceOf ci c :: flatChoicesGo (ci + 1) cs

/-- Flat payload of one grid row at index ri. -/
def flatRowOf (ri : Nat) (r : SurveyGridRowForm) : FlatRowPayload :=
  { rowNumber := natOr r.rowNumber (ri + 1)
    rowText := r.rowText
    rowImage := r.rowImage
    rowImageFile := r.rowImageFile }

/-- Index-aware map of flatRowOf. -/
def flatRowsGo (ri : Nat) : List SurveyGridRowForm → List FlatRowPayload
  | [] => []
  | r :: rs => flatRowOf ri r :: flatRowsGo (ri + 1) rs

/-- The flattened payload of a main entry with question number qn. -/
def mainPayloadAt (qn : Nat) (entry : SurveyEntryForm) : FlatEntryPayload :=
  { clientId := entry.clientId
    question := entry.question
    questionNumber := qn
    questionImage := entry.questionImage
    questionImageFile := entry.questionImageFile
    questionType := entry.questionType
    isRequired := entry.isRequired
    hasTextInput := entry.hasTextInput.getD false
    choices := flatChoicesGo 0 entry.choices
    gridRows := flatRowsGo 0 entry.gridRows
    isFollowUp := false
    parentQuestionClientId := none
    triggerChoiceClientIds := none }

/-- The flattened payload of the follow-up question f owned by choice of
parent, with question number qn. -/
def followUpPayloadAt (qn : Nat) (parent : SurveyEntryForm) (choice : SurveyChoiceForm)
    (f : SurveyEntryForm) : FlatEntryPayload :=
  { clientId := f.clientId
    question := f.question
    questionNumber := qn
    questionImage := f.questionImage
    questionImageFile := f.questionImageFile
    questionType := f.questionType
    isRequired := f.isRequired
    hasTextInput := f.hasTextInput.getD false
    choices := flatChoicesGo 0 f.choices
    gridRows := flatRowsGo 0 f.gridRows
    isFollowUp := true
    parentQuestionClientId := some parent.clientId
    triggerChoiceClientIds := some [choice.clientId] }

/-- The follow-up extraction loop of flattenEntriesForPayload: walk the
choices of parent, emitting a payload for every choice that carries a
follow-up, threading the question-number counter. -/
def flattenFollowUpsGo (parent : SurveyEntryForm) (qn : Nat) :
    List SurveyChoiceForm → List FlatEntryPayload × Nat
  | [] => ([], qn)
  | c :: cs =>
    match boolTruthy c.hasFollowUp, c.followUpQuestion with
    | true, some f =>
      let rest := flattenFollowUpsGo parent (qn + 1) cs
      (followUpPayloadAt qn parent c f :: rest.1, rest.2)
    | _, _ => flattenFollowUpsGo parent qn cs

/-- The entry loop of flattenEntriesForPayload, threading the counter. -/
def flattenEntriesGo (qn : Nat) : List SurveyEntryForm → List FlatEntryPayload
  | [] => []
  | e :: es =>
    let fus := flattenFollowUpsGo e (qn + 1) e.choices
    mainPayloadAt qn e :: (fus.1 ++ flattenEntriesGo fus.2 es)

/-- Source flattenEntriesForPayload: the counter starts at 1. -/
def flattenEntriesForPayload (entries : List SurveyEntryForm) : List FlatEntryPayload :=
  flattenEntriesGo 1 entries

/-- getNextQuestionNumber from CreateSurveyForm: one more than the count of
main questions plus nested follow-up questions over all sections. -/
def getNextQuestionNumber (sections : List SurveySectionForm) : Nat :=
  (sections.foldl (fun total s =>
    s.entries.foldl (fun t e =>
      e.choices.foldl (fun t2 c =>
        if boolTruthy c.hasFollowUp && c.followUpQuestion.isSome then t2 + 1 else t2) t)
      (total + s.entries.length)) 0) + 1

/-!
The API operations that the edit-mode save logic can dispatch, with the
request payloads the source builds for them.
-/

/-- Payload of updateSurveyEntry. -/
structure EntryUpdateData where
  question : String
  questionNumber : Option Nat
  questionType : SurveyQuestionType
  isRequired : Bool
  questionImageFile : Option FileV
deriving DecidableEq

/-- Payload of addChoice and updateChoice (and of the nested choices of an
addEntry payload). -/
structure ChoiceOpData where
  clientId : String
  choiceOrder : String
  choiceText : String
  choiceImageFile : Option FileV
  hasTextInput : Bool
deriving DecidableEq

/-- Payload of addGridRow and updateGridRow (and of the nested rows of an
addEntry payload). -/
structure RowOpData where
  rowNumber : Nat
  rowText : String
  rowImageFile : Option FileV
deriving DecidableEq

/-- Payload of addEntryToSection. -/
structure AddEntryData where
  clientId : String
  question : String
  questionNumber : Option Nat
  questionType : SurveyQuestionType
  isRequired : Bool
  isFollowUp : Bool
  parentQuestionClientId : Option String
  triggerChoiceClientIds : Option (List String)
  parentQuestionId : Option String
  triggerChoiceIds : Option (List String)
  questionImageFile : Option FileV
  choices : List ChoiceOpData
  gridRows : List RowOpData
deriving DecidableEq

/-- One element of the bulk section-creation payload. -/
structure BulkSectionPayload where
  title : String
  description : Option String
  sectionNumber : Nat
  entries : List FlatEntryPayload
deriving DecidableEq

/-- A planned API operation. -/
inductive PlannedOp where
  | updateSection (sectionId : String) (title : String) (description : Option String)
      (sectionNumber : Nat)
  | updateEntry (entryId : String) (data : EntryUpdateData)
  | updateChoice (choiceId : String) (data : ChoiceOpData)
  | updateGridRow (rowId : String) (data : RowOpData)
  | bulkAddSections (payload : List BulkSectionPayload)
  | addEntry (sectionId : String) (data : AddEntryData)
  | addChoice (entryId : String) (data : ChoiceOpData)
  | addGridRow (entryId : String) (data : RowOpData)
  | deleteChoice (choiceId : String)
  | deleteGridRow (rowId : String)
deriving DecidableEq

/-- Choice op payload for the choice at index ci, as built by the source. -/
def choiceOpOf (ci : Nat) (c : SurveyChoiceForm) : ChoiceOpData :=
  { clientId := c.clientId
    choiceOrder := strOr c.choiceOrder (letterFor ci)
    choiceText := c.choiceText
    choiceImageFile := c.choiceImageFile
    hasTextInput := c.hasTextInput.getD false }

/-- Index-aware map of choiceOpOf. -/
def choiceOpsGo (ci : Nat) : List SurveyChoiceForm → List ChoiceOpData
  | [] => []
  | c :: cs => choiceOpOf ci c :: choiceOpsGo (ci + 1) cs

/-- Row op payload for the row at index ri, as built by the source. -/
def rowOpOf (ri : Nat) (r : SurveyGridRowForm) : RowOpData :=
  { rowNumber := natOr r.rowNumber (ri + 1)
    rowText := r.rowText
    rowImageFile := r.rowImageFile }

/-- Index-aware map of rowOpOf. -/
def rowOpsGo (ri : Nat) : List SurveyGridRowForm → List RowOpData
  | [] => []
  | r :: rs => rowOpOf ri r :: rowOpsGo (ri + 1) rs

/-!
The edit-mode change detection and planning of handleSubmit, steps 1 to 6.
Every loop that pairs the working tree against the snapshot pairs them by
position and runs to the shorter of the two lists, which parallel list
recursion reproduces.
-/

/-- Step 1: section title and description updates. -/
def sectionUpdateOpsGo (si : Nat) : List SurveySectionForm → List SurveySectionForm → List PlannedOp
  | [], _ => []
  | _, [] => []
  | c :: cs, o :: os =>
    (if strTruthy c.id && hasSectionChanged c o then
      [.updateSection (c.id.getD "") c.title c.description (numOr c.sectionNumber (si + 1))]
    else []) ++ sectionUpdateOpsGo (si + 1) cs os

/-- Step 3: choice updates of one entry. -/
def choiceUpdateOpsGo (ci : Nat) : List SurveyChoiceForm → List SurveyChoiceForm → List PlannedOp
  | [], _ => []
  | _, [] => []
  | c :: cs, o :: os =>
    (if strTruthy c.id then
      if hasChoiceChanged c o then [.updateChoice (c.id.getD "") (choiceOpOf ci c)] else []
    else []) ++ choiceUpdateOpsGo (ci + 1) cs os

/-- Step 4: grid row updates of one entry. -/
def rowUpdateOpsGo (ri : Nat) : List SurveyGridRowForm → List SurveyGridRowForm → List PlannedOp
  | [], _ => []
  | _, [] => []
  | r :: rs, o :: os =>
    (if strTruthy r.id then
      if hasGridRowChanged r o then [.updateGridRow (r.id.getD "") (rowOpOf ri r)] else []
    else []) ++ rowUpdateOpsGo (ri + 1) rs os

/-- Steps 2 to 4: entry, choice and grid row updates of one section; a
question without a server id is skipped whole, and grid rows are compared
only for GRID questions. -/
def entryUpdateOpsGo : List SurveyEntryForm → List SurveyEntryForm → List PlannedOp
  | [], _ => []
  | _, [] => []
  | c :: cs, o :: os =>
    (if strTruthy c.id then
      (if hasEntryChanged c o then
        [.updateEntry (c.id.getD "")
          { question := c.question
            questionNumber := c.questionNumber
            questionType := c.questionType
            isRequired := c.isRequired
            questionImageFile := c.questionImageFile }]
      else []) ++
      choiceUpdateOpsGo 0 c.choices o.choices ++
      (if c.questionType = .GRID then rowUpdateOpsGo 0 c.gridRows o.gridRows else [])
    else []) ++ entryUpdateOpsGo cs os

/-- Steps 2 to 4 over all paired sections. -/
def entrySectionOpsGo : List SurveySectionForm → List SurveySectionForm → List PlannedOp
  | [], _ => []
  | _, [] => []
  | c :: cs, o :: os => entryUpdateOpsGo c.entries o.entries ++ entrySectionOpsGo cs os

/-- Step 5 payload: the new sections beyond the original count, each with
its full flattened entry list. -/
def bulkPayloadGo (base : Nat) : Nat → List SurveySectionForm → List BulkSectionPayload
  | _, [] => []
  | idx, s :: rest =>
    { title := s.title
      description := s.description
      sectionNumber := base + idx + 1
      entries := flattenEntriesForPayload s.entries } :: bulkPayloadGo base (idx + 1) rest

/-- The addEntry payload handleSubmit builds for a new question of an
existing section. -/
def addEntryDataOf (e : SurveyEntryForm) : AddEntryData :=
  { clientId := e.clientId
    question := e.question
    questionNumber := e.questionNumber
    questionType := e.questionType
    isRequired := e.isRequired
    isFollowUp := e.isFollowUp
    parentQuestionClientId := e.parentQuestionClientId
    triggerChoiceClientIds := e.triggerChoiceClientIds
    parentQuestionId := none
    triggerChoiceIds := none
    questionImageFile := e.questionImageFile
    choices := choiceOpsGo 0 e.choices
    gridRows := rowOpsGo 0 e.gridRows }

/-- Step 6: new questions appended to the first originalSectionsCount
sections, created one addEntry call each. -/
def newEntryOpsGo : Nat → List Nat → List SurveySectionForm → List PlannedOp
  | 0, _, _ => []
  | _, _, [] => []
  | limit + 1, counts, s :: rest =>
    let qc := counts.headD 0
    (if decide (qc < s.entries.length) && strTruthy s.id then
      (s.entries.drop qc).map (fun e => .addEntry (s.id.getD "") (addEntryDataOf e))
    else []) ++ newEntryOpsGo limit counts.tail rest

/-- The full ordered operation list of the edit-mode handleSubmit. -/
def planEditOps (st : FormState) : List PlannedOp :=
  let newSecs := st.sections.drop st.originalSectionsCount
  sectionUpdateOpsGo 0 st.sections st.originalSectionsSnapshot ++
  entrySectionOpsGo st.sections st.originalSectionsSnapshot ++
  (if newSecs.isEmpty then []
   else [.bulkAddSections (bulkPayloadGo st.originalSectionsCount 0 newSecs)]) ++
  newEntryOpsGo st.originalSectionsCount st.originalQuestionCounts st.sections

/-- How much one operation contributes to totalChanges and to the success
and failure counters: the bulk section call counts once per new section,
every other call once. -/
def opWeight : PlannedOp → Nat
  | .bulkAddSections p => p.length
  | _ => 1

/-- Total weight of a plan, the totalChanges counter of the source. -/
def opsWeight (ops : List PlannedOp) : Nat :=
  (ops.map opWeight).sum

/-- Success and failure counters produced by running the plan against a
positional outcome oracle: ok i tells whether the operation at position i
succeeds. -/
def countsGo (ok : Nat → Bool) : Nat → List PlannedOp → Nat × Nat
  | _, [] => (0, 0)
  | i, op :: rest =>
    let r := countsGo ok (i + 1) rest
    if ok i then (r.1 + opWeight op, r.2) else (r.1, r.2 + opWeight op)

/-- The user-visible outcome of the edit-mode save. -/
inductive SaveOutcome where
  | validationError (msg : String)
  | noChanges
  | allSaved (succeeded : Nat)
  | mixedOutcome (succeeded failed : Nat)
  | allFailed (failed : Nat)
deriving DecidableEq

/-- The toast text of each outcome. -/
def outcomeMessage : SaveOutcome → String
  | .validationError msg => msg
  | .noChanges => "No changes to save"
  | .allSaved n => "All " ++ toString n ++ " change(s) saved successfully"
  | .mixedOutcome s f => toString s ++ " change(s) saved, " ++ toString f ++ " failed"
  | .allFailed f => "Failed to save " ++ toString f ++ " change(s)"

/-- The edit-mode handleSubmit: validation gate, change detection and
planning, execution against the outcome oracle, and the state update the
source performs in each outcome branch. The snapshot and the counts are
rewritten, wholesale from the working tree, only when every operation
succeeded; every other branch leaves the state untouched. -/
def handleSubmitEdit (st : FormState) (ok : Nat → Bool) : SaveOutcome × FormState :=
  match validateForm st with
  | some msg => (.validationError msg, st)
  | none =>
    let ops := planEditOps st
    let totalChanges := opsWeight ops
    let counts := countsGo ok 0 ops
    if totalChanges = 0 then (.noChanges, st)
    else if counts.2 = 0 then
      (.allSaved counts.1,
        { st with
            originalSectionsSnapshot := deepCopySections st.sections
            originalSectionsCount := st.sections.length
            originalQuestionCounts := st.sections.map (fun s => s.entries.length) })
    else if 0 < counts.1 then (.mixedOutcome counts.1 counts.2, st)
    else (.allFailed counts.2, st)

/-!
handleSaveCurrentQuestion from CreateSurveyForm: immediate save of one
existing question. The source pushes every basic operation (entry update,
choice deletions, choice additions and updates, grid row deletions, grid
row additions and updates, in that emission order) into one promise array
and awaits them together; only the follow-up creations form a second
batch awaited after the first completes. The embedding returns the two
batches as wave1 and wave2.
-/

/-- Result of handleSaveCurrentQuestion: either an early toast error, or
the two concurrently dispatched operation batches. -/
inductive SaveQuestionResult where
  | error (msg : String)
  | waves (wave1 wave2 : List PlannedOp)
deriving DecidableEq

/-- Step 1: update the entry itself only when the detector fires. -/
def saveQEntryUpdateOps (cur : SurveyEntryForm) (origE : Option SurveyEntryForm) :
    List PlannedOp :=
  match origE with
  | some o =>
    if hasEntryChanged cur o then
      [.updateEntry (cur.id.getD "")
        { question := cur.question
          questionNumber := cur.questionNumber
          questionType := cur.questionType
          isRequired := cur.isRequired
          questionImageFile := cur.questionImageFile }]
    else []
  | none => []

/-- Step 2: delete the original server-persisted choices no longer present
in the working entry. -/
def saveQChoiceDeleteOps (cur : SurveyEntryForm) (origE : Option SurveyEntryForm) :
    List PlannedOp :=
  let currentChoiceIds := (cur.choices.filterMap SurveyChoiceForm.id).filter (fun s => s ≠ "")
  let originalChoicesWithIds :=
    ((origE.map SurveyEntryForm.choices).getD []).filter (fun c => strTruthy c.id)
  originalChoicesWithIds.filterMap (fun oc =>
    if strTruthy oc.id && !currentChoiceIds.contains (oc.id.getD "") then
      some (.deleteChoice (oc.id.getD ""))
    else none)

/-- Step 3: add new choices, update changed existing ones. -/
def saveQChoiceOpsGo (entryId : String) (origChoices : List SurveyChoiceForm) (ci : Nat) :
    List SurveyChoiceForm → List PlannedOp
  | [] => []
  | c :: cs =>
    (if !strTruthy c.id then
      [.addChoice entryId (choiceOpOf ci c)]
    else
      match origChoices.find? (fun oc => oc.id == c.id) with
      | some oc => if hasChoiceChanged c oc then [.updateChoice (c.id.getD "") (choiceOpOf ci c)] else []
      | none => []) ++ saveQChoiceOpsGo entryId origChoices (ci + 1) cs

/-- Step 4: delete the original server-persisted grid rows no longer
present in the working entry. -/
def saveQRowDeleteOps (cur : SurveyEntryForm) (origE : Option SurveyEntryForm) :
    List PlannedOp :=
  let currentGridRowIds := (cur.gridRows.filterMap SurveyGridRowForm.id).filter (fun s => s ≠ "")
  let originalGridRowsWithIds :=
    ((origE.map SurveyEntryForm.gridRows).getD []).filter (fun r => strTruthy r.id)
  originalGridRowsWithIds.filterMap (fun orr =>
    if strTruthy orr.id && !currentGridRowIds.contains (orr.id.getD "") then
      some (.deleteGridRow (orr.id.getD ""))
    else none)

/-- Step 5: add new grid rows, update changed existing ones. -/
def saveQRowOpsGo (entryId : String) (origRows : List SurveyGridRowForm) (ri : Nat) :
    List SurveyGridRowForm → List PlannedOp
  | [] => []
  | r :: rs =>
    (if !strTruthy r.id then
      [.addGridRow entryId (rowOpOf ri r)]
    else
      match origRows.find? (fun orr => orr.id == r.id) with
      | some orr => if hasGridRowChanged r orr then [.updateGridRow (r.id.getD "") (rowOpOf ri r)] else []
      | none => []) ++ saveQRowOpsGo entryId origRows (ri + 1) rs

/-- Step 6: create the new follow-up questions found in the choices. A new
follow-up on a choice that already has a server id is created with server
identifiers; a new follow-up on a choice without a server id is created
with client identifiers, whatever the state of the parent entry; an
existing follow-up is skipped. The counter numbers the created follow-ups
starting from nextQ. -/
def saveQFollowUpOpsGo (sectionId : String) (cur : SurveyEntryForm) (nextQ : Nat) :
    Nat → List SurveyChoiceForm → List PlannedOp
  | _, [] => []
  | counter, c :: cs =>
    match boolTruthy c.hasFollowUp, c.followUpQuestion with
    | true, some f =>
      if !strTruthy f.id && strTruthy c.id && strTruthy cur.id then
        .addEntry sectionId
          { clientId := f.clientId
            question := f.question
            questionNumber := some (nextQ + counter)
            questionType := f.questionType
            isRequired := f.isRequired
            isFollowUp := true
            parentQuestionClientId := none
            triggerChoiceClientIds := none
            parentQuestionId := some (cur.id.getD "")
            triggerChoiceIds := some [c.id.getD ""]
            questionImageFile := f.questionImageFile
            choices := choiceOpsGo 0 f.choices
            gridRows := rowOpsGo 0 f.gridRows }
          :: saveQFollowUpOpsGo sectionId cur nextQ (counter + 1) cs
      else if !strTruthy f.id && !strTruthy c.id then
        .addEntry sectionId
          { clientId := f.clientId
            question := f.question
            questionNumber := some (nextQ + counter)
            questionType := f.questionType
            isRequired := f.isRequired
            isFollowUp := true
            parentQuestionClientId := some cur.clientId
            triggerChoiceClientIds := some [c.clientId]
            parentQuestionId := none
            triggerChoiceIds := none
            questionImageFile := f.questionImageFile
            choices := choiceOpsGo 0 f.choices
            gridRows := rowOpsGo 0 f.gridRows }
          :: saveQFollowUpOpsGo sectionId cur nextQ (counter + 1) cs
      else saveQFollowUpOpsGo sectionId cur nextQ counter cs
    | _, _ => saveQFollowUpOpsGo sectionId cur nextQ counter cs

/-- The working entry at the selection, when it exists. -/
def currentEntryAt (st : FormState) (selectedSection selectedQuestion : Nat) :
    Option SurveyEntryForm :=
  (st.sections.get? selectedSection).bind (fun s => s.entries.get? selectedQuestion)

/-- The snapshot entry at the selection, when it exists. -/
def originalEntryAt (st : FormState) (selectedSection selectedQuestion : Nat) :
    Option SurveyEntryForm :=
  (st.originalSectionsSnapshot.get? selectedSection).bind
    (fun s => s.entries.get? selectedQuestion)

/-- The id the source passes as sectionId for follow-up creation. -/
def sectionIdAt (st : FormState) (selectedSection : Nat) : String :=
  ((st.sections.get? selectedSection).bind SurveySectionForm.id).getD ""

/-- Source handleSaveCurrentQuestion: guard, per-entry validation, then the
two operation batches. -/
def handleSaveCurrentQuestion (st : FormState) (selectedSection selectedQuestion : Nat) :
    SaveQuestionResult :=
  match currentEntryAt st selectedSection selectedQuestion with
  | none => .error "Cannot save: Question doesn\x27t exist or is a new question"
  | some cur =>
    if !strTruthy cur.id then
      .error "Cannot save: Question doesn\x27t exist or is a new question"
    else
      match validateSurveyEntry cur with
      | e :: _ => .error e
      | [] =>
        let origE := originalEntryAt st selectedSection selectedQuestion
        let wave1 :=
          saveQEntryUpdateOps cur origE ++
          saveQChoiceDeleteOps cur origE ++
          saveQChoiceOpsGo (cur.id.getD "") ((origE.map SurveyEntryForm.choices).getD []) 0
            cur.choices ++
          saveQRowDeleteOps cur origE ++
          saveQRowOpsGo (cur.id.getD "") ((origE.map SurveyEntryForm.gridRows).getD []) 0
            cur.gridRows
        let wave2 :=
          saveQFollowUpOpsGo (sectionIdAt st selectedSection) cur
            (getNextQuestionNumber st.sections) 0 cur.choices
        .waves wave1 wave2

/-!
Claim C2: reflexivity of hasEntryChanged.
-/

/-- A concrete entry whose questionImageFile slot holds a freshly attached
file. -/
def entryWithFile : SurveyEntryForm :=
  .mk "e1" "Q" none none (some ⟨"img"⟩) .TEXT true [] [] none false
    none none none none (some "e1")

/-- A concrete entry without an attached file. -/
def entryNoFile : SurveyEntryForm :=
  .mk "e1" "Q" none none none .TEXT true [] [] none false
    none none none none (some "e1")

/-- C2 counterexample: an entry holding a freshly attached file compares as
changed even against itself, because the detector reports any attached
File as a change regardless of the other side. -/
theorem hasEntryChanged_self_with_file : hasEntryChanged entryWithFile entryWithFile = true := by
  rfl

/-- C2 (amended): for every entry whose questionImageFile slot is empty,
hasEntryChanged of the entry against itself is false. -/
theorem hasEntryChanged_self_of_no_file (e : SurveyEntryForm)
    (h : e.questionImageFile = none) : hasEntryChanged e e = false := by
  simp [hasEntryChanged, h]

/-- Witness for the amended C2 at a concrete entry. -/
theorem hasEntryChanged_self_of_no_file_witness :
    entryNoFile.questionImageFile = none ∧ hasEntryChanged entryNoFile entryNoFile = false :=
  ⟨rfl, hasEntryChanged_self_of_no_file entryNoFile rfl⟩

/-!
Claim C10: structure of flattenEntriesForPayload. The specification-side
description: each entry contributes a block of its main payload followed
by one follow-up payload per choice carrying a follow-up, and the output
is the concatenation of the blocks with questionNumber assigned densely
from 1.
-/

/-- The choices of e that carry a nested follow-up question. -/
def entryFollowUpChoices (e : SurveyEntryForm) : List SurveyChoiceForm :=
  e.choices.filter (fun c => boolTruthy c.hasFollowUp && c.followUpQuestion.isSome)

/-- The follow-up payload of a choice, before numbering. -/
def followUpPayload0 (parent : SurveyEntryForm) (c : SurveyChoiceForm) : FlatEntryPayload :=
  match c.followUpQuestion with
  | some f => followUpPayloadAt 0 parent c f
  | none => mainPayloadAt 0 parent

/-- The unnumbered block one entry contributes to the flattened list. -/
def entryBlock (e : SurveyEntryForm) : List FlatEntryPayload :=
  mainPayloadAt 0 e :: (entryFollowUpChoices e).map (followUpPayload0 e)

/-- Assignment of consecutive question numbers starting at k. -/
def renumberFrom : Nat → List FlatEntryPayload → List FlatEntryPayload
  | _, [] => []
  | k, p :: ps => { p with questionNumber := k } :: renumberFrom (k + 1) ps

theorem renumberFrom_append (k : Nat) (a b : List FlatEntryPayload) :
    renumberFrom k (a ++ b) = renumberFrom k a ++ renumberFrom (k + a.length) b := by
  induction a generalizing k with
  | nil => simp [renumberFrom]
  | cons p ps ih =>
    simp only [List.cons_append, renumberFrom, List.length_cons, List.append_eq]
    rw [ih]
    have h : k + 1 + ps.length = k + (ps.length + 1) := by omega
    rw [h]

theorem renumberFrom_length (k : Nat) (l : List FlatEntryPayload) :
    (renumberFrom k l).length = l.length := by
  induction l generalizing k with
  | nil => rfl
  | cons p ps ih => simp [renumberFrom, ih]

theorem flattenFollowUpsGo_eq (parent : SurveyEntryForm) (qn : Nat)
    (cs : List SurveyChoiceForm) :
    flattenFollowUpsGo parent qn cs =
      (renumberFrom qn (((cs.filter (fun c => boolTruthy c.hasFollowUp && c.followUpQuestion.isSome))).map (followUpPayload0 parent)),
       qn + (cs.filter (fun c => boolTruthy c.hasFollowUp && c.followUpQuestion.isSome)).length) := by
  induction cs generalizing qn with
  | nil => simp [flattenFollowUpsGo, renumberFrom]
  | cons c cs ih =>
    cases hb : boolTruthy c.hasFollowUp with
    | false =>
      cases hf : c.followUpQuestion with
      | none => simp [flattenFollowUpsGo, hb, hf, ih]
      | some f => simp [flattenFollowUpsGo, hb, hf, ih]
    | true =>
      cases hf : c.followUpQuestion with
      | none => simp [flattenFollowUpsGo, hb, hf, ih]
      | some f =>
        have hstep : flattenFollowUpsGo parent qn (c :: cs)
            = (followUpPayloadAt qn parent c f :: (flattenFollowUpsGo parent (qn + 1) cs).1,
               (flattenFollowUpsGo parent (qn + 1) cs).2) := by
          simp [flattenFollowUpsGo, hb, hf]
        rw [hstep, ih]
        simp only [List.filter_cons, hb, hf, Option.isSome_some, Bool.and_self, if_pos,
          List.map_cons, List.length_cons, renumberFrom, Prod.mk.injEq, List.cons.injEq]
        refine ⟨⟨?_, ?_⟩, ?_⟩
        · simp [followUpPayload0, hf, followUpPayloadAt]
        · trivial
        · omega

theorem flattenEntriesGo_eq (qn : Nat) (es : List SurveyEntryForm) :
    flattenEntriesGo qn es = renumberFrom qn ((es.map entryBlock).flatten) := by
  induction es generalizing qn with
  | nil => simp [flattenEntriesGo, renumberFrom]
  | cons e es ih =>
    have hblock : renumberFrom qn (entryBlock e)
        = mainPayloadAt qn e ::
          renumberFrom (qn + 1) ((entryFollowUpChoices e).map (followUpPayload0 e)) := by
      simp [entryBlock, renumberFrom, mainPayloadAt]
    rw [List.map_cons, List.flatten_cons, renumberFrom_append, hblock, List.cons_append]
    simp only [flattenEntriesGo, flattenFollowUpsGo_eq]
    rw [ih]
    have harg : qn + (entryBlock e).length
        = qn + 1 +
          (e.choices.filter (fun c => boolTruthy c.hasFollowUp && c.followUpQuestion.isSome)).length := by
      simp only [entryBlock, List.length_cons, List.length_map, entryFollowUpChoices]
      omega
    rw [harg]
    simp [entryFollowUpChoices]

theorem renumberFrom_get (k : Nat) (l : List FlatEntryPayload) (i : Nat)
    (h : i < (renumberFrom k l).length) :
    ((renumberFrom k l).get ⟨i, h⟩).questionNumber = k + i := by
  induction l generalizing k i with
  | nil => simp [renumberFrom] at h
  | cons p ps ih =>
    cases i with
    | zero => simp [renumberFrom]
    | succ j =>
      have h2 : j < (renumberFrom (k + 1) ps).length := by
        have := h
        simp only [renumberFrom, List.length_cons] at this
        simpa [renumberFrom_length] using Nat.lt_of_succ_lt_succ this
      have hrec := ih (k + 1) j h2
      simp only [renumberFrom, List.get_cons_succ]
      rw [hrec]
      omega

/-- A concrete choice without follow-up, used by witnesses. -/
def choiceA : SurveyChoiceForm :=
  .mk "cA" (some "A") "Yes" none none (some "cA") (some false) (some false) none

/-- A concrete follow-up question, used by witnesses. -/
def followUpB : SurveyEntryForm :=
  .mk "fu1" "Why" none none none .TEXT false [] [] (some false) true
    (some "p1") (some ["cB"]) none none none

/-- A concrete choice carrying followUpB. -/
def choiceB : SurveyChoiceForm :=
  .mk "cB" (some "B") "No" none none (some "cB") (some false) (some true) (some followUpB)

/-- A concrete RADIO parent entry with choices choiceA and choiceB. -/
def parentEntry : SurveyEntryForm :=
  .mk "p1" "Q1" (some 1) none none .Radio true [choiceA, choiceB] [] (some false) false
    none none none none (some "p1")

/-- C10: flattenEntriesForPayload emits, for every entry, the main payload
with isFollowUp false immediately followed by the follow-up payloads
extracted from its choices; questionNumber is the dense one-based sequence
over the whole output; and every extracted follow-up payload has
isFollowUp true, parentQuestionClientId equal to the parent entry
clientId and triggerChoiceClientIds equal to exactly the owning choice
clientId. -/
theorem flattenEntriesForPayload_spec (entries : List SurveyEntryForm) :
    flattenEntriesForPayload entries = renumberFrom 1 ((entries.map entryBlock).flatten) ∧
    (∀ i (h : i < (flattenEntriesForPayload entries).length),
      ((flattenEntriesForPayload entries).get ⟨i, h⟩).questionNumber = 1 + i) ∧
    (∀ e : SurveyEntryForm,
      entryBlock e = mainPayloadAt 0 e :: (entryFollowUpChoices e).map (followUpPayload0 e) ∧
      (mainPayloadAt 0 e).isFollowUp = false ∧ (mainPayloadAt 0 e).clientId = e.clientId) ∧
    (∀ e c, c ∈ entryFollowUpChoices e →
      (followUpPayload0 e c).isFollowUp = true ∧
      (followUpPayload0 e c).parentQuestionClientId = some e.clientId ∧
      (followUpPayload0 e c).triggerChoiceClientIds = some [c.clientId] ∧
      ∃ f, c.followUpQuestion = some f ∧ (followUpPayload0 e c).clientId = f.clientId) := by
  have h1 : flattenEntriesForPayload entries
      = renumberFrom 1 ((entries.map entryBlock).flatten) := flattenEntriesGo_eq 1 entries
  refine ⟨h1, ?_, ?_, ?_⟩
  · intro i h
    rw [List.get_of_eq h1 ⟨i, h⟩]
    exact renumberFrom_get _ _ _ _
  · intro e
    exact ⟨rfl, rfl, rfl⟩
  · intro e c hc
    have hp := (List.mem_filter.mp hc).2
    have hsome : c.followUpQuestion.isSome = true := by
      simp only [Bool.and_eq_true] at hp
      exact hp.2
    obtain ⟨f, hfq⟩ := Option.isSome_iff_exists.mp hsome
    exact ⟨by simp [followUpPayload0, hfq, followUpPayloadAt],
        by simp [followUpPayload0, hfq, followUpPayloadAt],
        by simp [followUpPayload0, hfq, followUpPayloadAt],
        f, hfq, by simp [followUpPayload0, hfq, followUpPayloadAt]⟩

/-- Witness for C10 at a concrete entry list. -/
theorem flattenEntriesForPayload_spec_witness :
    flattenEntriesForPayload [parentEntry]
      = renumberFrom 1 (([parentEntry].map entryBlock).flatten) ∧
    (mainPayloadAt 0 parentEntry).isFollowUp = false ∧
    choiceB ∈ entryFollowUpChoices parentEntry ∧
    (followUpPayload0 parentEntry choiceB).parentQuestionClientId = some "p1" :=
  ⟨(flattenEntriesForPayload_spec [parentEntry]).1,
   ((flattenEntriesForPayload_spec [parentEntry]).2.2.1 parentEntry).2.1,
   by simp [entryFollowUpChoices, parentEntry, choiceB, boolTruthy,
     SurveyEntryForm.choices, SurveyChoiceForm.hasFollowUp, SurveyChoiceForm.followUpQuestion],
   ((flattenEntriesForPayload_spec [parentEntry]).2.2.2 parentEntry choiceB
     (by simp [entryFollowUpChoices, parentEntry, choiceB, boolTruthy,
       SurveyEntryForm.choices, SurveyChoiceForm.hasFollowUp,
       SurveyChoiceForm.followUpQuestion])).2.1.trans
     (by simp [parentEntry, SurveyEntryForm.clientId])⟩

/-!
Claim C8: follow-up nesting on load.
-/

theorem head_filter_filter {α : Type} (p q : α → Bool) (l : List α) :
    ((l.filter p).filter q).head? = l.find? (fun a => p a && q a) := by
  induction l with
  | nil => rfl
  | cons a l ih =>
    cases hp : p a with
    | false =>
      rw [List.filter_cons_of_neg (by simp [hp]), List.find?_cons_of_neg _ (by simp [hp]), ih]
    | true =>
      cases hq : q a with
      | false =>
        rw [List.filter_cons_of_pos (by simp [hp]), List.filter_cons_of_neg (by simp [hq]),
          List.find?_cons_of_neg _ (by simp [hp, hq]), ih]
      | true =>
        rw [List.filter_cons_of_pos (by simp [hp]), List.filter_cons_of_pos (by simp [hq]),
          List.find?_cons_of_pos _ (by simp [hp, hq])]
        rfl

theorem decide_pos_length_eq_isSome_head {α : Type} (l : List α) :
    decide (0 < l.length) = l.head?.isSome := by
  cases l <;> simp

/-- C8 (amended): for every server response, section, main entry and
choice, transformResponseToForm nests under that choice exactly the first
follow-up entry of the flat section list, in original list order, whose
parent is the entry and whose trigger set contains the choice id; later
matching follow-ups are never nested under that choice, though one may
still be nested under a different choice contained in its trigger set. -/
theorem transform_nests_first_matching (resp : SurveyDetailResponse)
    (si ei ci : Nat) (sec : SurveySectionResponse) (mainE : SurveyEntryResponse)
    (ch : SurveyChoiceResponse)
    (hs : resp.sections[si]? = some sec)
    (he : (sec.entries.filter (fun e => !e.isFollowUp))[ei]? = some mainE)
    (hc : mainE.choices[ci]? = some ch) :
    ∃ sf ef cf,
      (transformResponseToForm resp)[si]? = some sf ∧
      sf.entries[ei]? = some ef ∧
      ef.choices[ci]? = some cf ∧
      cf.followUpQuestion
        = (sec.entries.find? (fun fu => fu.isFollowUp && relevantFollowUpP mainE.id ch.id fu)).map
            (transformFollowUpEntry mainE.id ch.id) ∧
      cf.hasFollowUp
        = some (sec.entries.find?
            (fun fu => fu.isFollowUp && relevantFollowUpP mainE.id ch.id fu)).isSome := by
  refine ⟨transformSection sec,
    transformMainEntry (sec.entries.filter (fun e => e.isFollowUp)) mainE,
    transformChoice (sec.entries.filter (fun e => e.isFollowUp)) mainE.id ch,
    ?_, ?_, ?_, ?_, ?_⟩
  · simp [transformResponseToForm, List.getElem?_map, hs]
  · simp [transformSection, List.getElem?_map, he]
  · simp [transformMainEntry, SurveyEntryForm.choices, List.getElem?_map, hc]
  · simp only [transformChoice, SurveyChoiceForm.followUpQuestion]
    rw [← head_filter_filter]
  · simp only [transformChoice, SurveyChoiceForm.hasFollowUp]
    rw [← head_filter_filter, ← decide_pos_length_eq_isSome_head]

/-- Concrete response choice a of the C8 scenario. -/
def choiceRespA : SurveyChoiceResponse :=
  { id := "a", choiceOrder := "A", choiceText := "Yes", choiceImageUrl := none,
    hasTextInput := none }

/-- Concrete response choice b of the C8 scenario. -/
def choiceRespB : SurveyChoiceResponse :=
  { id := "b", choiceOrder := "B", choiceText := "No", choiceImageUrl := none,
    hasTextInput := none }

/-- Concrete main question of the C8 scenario. -/
def entryRespP : SurveyEntryResponse :=
  { id := "p", questionNumber := 1, question := "Q", questionImageUrl := none,
    questionType := .Radio, isRequired := true, choices := [choiceRespA, choiceRespB],
    gridRows := [], hasTextInput := none, isFollowUp := false,
    parentQuestionId := none, triggerChoiceIds := none }

/-- First follow-up of the C8 scenario, triggered by choice a only. -/
def entryRespF1 : SurveyEntryResponse :=
  { id := "f1", questionNumber := 2, question := "F1", questionImageUrl := none,
    questionType := .TEXT, isRequired := false, choices := [], gridRows := [],
    hasTextInput := none, isFollowUp := true, parentQuestionId := some "p",
    triggerChoiceIds := some ["a"] }

/-- Second follow-up of the C8 scenario, whose trigger set also contains
choice a but additionally choice b. -/
def entryRespF2 : SurveyEntryResponse :=
  { id := "f2", questionNumber := 3, question := "F2", questionImageUrl := none,
    questionType := .TEXT, isRequired := false, choices := [], gridRows := [],
    hasTextInput := none, isFollowUp := true, parentQuestionId := some "p",
    triggerChoiceIds := some ["a", "b"] }

/-- Concrete section of the C8 scenario. -/
def sectionRespC8 : SurveySectionResponse :=
  { id := "s1", title := "Sec", description := none, sectionNumber := 1,
    entries := [entryRespP, entryRespF1, entryRespF2] }

/-- Concrete response of the C8 scenario: two follow-ups of the same parent
whose trigger sets share choice a. -/
def respC8 : SurveyDetailResponse :=
  { id := "sv", name := "S", type := none, description := "",
    sections := [sectionRespC8] }

/-- C8 counterexample: both follow-ups name parent p and contain choice a
in their trigger sets; only the first is nested under choice a, but the
second does not disappear from the rebuilt tree: it is nested under
choice b, contradicting the claim that the remaining follow-ups appear
nowhere in the rebuilt tree. -/
theorem transform_second_matching_followUp_reappears :
    ((((transformResponseToForm respC8).head?.bind (fun s => s.entries.head?)).bind
        (fun e => e.choices[0]?)).bind
        SurveyChoiceForm.followUpQuestion).map SurveyEntryForm.id = some (some "f1") ∧
    ((((transformResponseToForm respC8).head?.bind (fun s => s.entries.head?)).bind
        (fun e => e.choices[1]?)).bind
        SurveyChoiceForm.followUpQuestion).map SurveyEntryForm.id = some (some "f2") := by
  constructor <;> rfl

/-- Witness for the amended C8 at the concrete response. -/
theorem transform_nests_first_matching_witness :
    ∃ sf ef cf,
      (transformResponseToForm respC8)[0]? = some sf ∧
      sf.entries[0]? = some ef ∧
      ef.choices[0]? = some cf ∧
      cf.followUpQuestion
        = (sectionRespC8.entries.find?
            (fun fu => fu.isFollowUp && relevantFollowUpP entryRespP.id choiceRespA.id fu)).map
            (transformFollowUpEntry entryRespP.id choiceRespA.id) ∧
      cf.hasFollowUp
        = some (sectionRespC8.entries.find?
            (fun fu => fu.isFollowUp && relevantFollowUpP entryRespP.id choiceRespA.id fu)).isSome :=
  transform_nests_first_matching respC8 0 0 0 sectionRespC8 entryRespP choiceRespA rfl rfl rfl

/-!
Claim C7: the validation gate.
-/

theorem validateEntriesFrom_none_sound (title : String) (qIdx : Nat)
    (l : List SurveyEntryForm) (h : validateEntriesFrom title qIdx l = none) :
    ∀ e ∈ l, validateSurveyEntry e = [] := by
  induction l generalizing qIdx with
  | nil =>
    intro e he
    cases he
  | cons q qs ih =>
    intro e he
    cases hv : validateSurveyEntry q with
    | cons x xs =>
      simp only [validateEntriesFrom, hv] at h
      exact Option.noConfusion h
    | nil =>
      cases hf : validateFollowUpsOfChoices q.choices with
      | some m =>
        simp only [validateEntriesFrom, hv, hf] at h
        exact Option.noConfusion h
      | none =>
        simp only [validateEntriesFrom, hv, hf] at h
        rcases List.mem_cons.mp he with rfl | he2
        · exact hv
        · exact ih (qIdx + 1) h e he2

theorem validateSectionsFrom_none_sound (sIdx : Nat) (l : List SurveySectionForm)
    (h : validateSectionsFrom sIdx l = none) :
    ∀ s ∈ l, ∀ e ∈ s.entries, validateSurveyEntry e = [] := by
  induction l generalizing sIdx with
  | nil =>
    intro s hs
    cases hs
  | cons s ss ih =>
    intro s2 hs2 e he
    simp only [validateSectionsFrom] at h
    by_cases ht : jsTrim s.title = ""
    · rw [if_pos ht] at h
      cases h
    · rw [if_neg ht] at h
      by_cases hemp : s.entries.isEmpty = true
      · rw [if_pos hemp] at h
        cases h
      · rw [if_neg hemp] at h
        cases hv : validateEntriesFrom s.title 0 s.entries with
        | some m =>
          rw [hv] at h
          cases h
        | none =>
          rw [hv] at h
          rcases List.mem_cons.mp hs2 with rfl | hs3
          · exact validateEntriesFrom_none_sound _ _ _ hv e he
          · exact ih (sIdx + 1) h s2 hs3 e he

/-- C7 (amended): a working tree containing an entry that fails structural
validation blocks the save entirely: no operation is attempted and the
state is unchanged; but only a single message, naming the first violated
rule of the first invalid question, is surfaced, not the full error
list. -/
theorem validation_gate_blocks_save (st : FormState) (ok : Nat → Bool)
    (sec : SurveySectionForm) (e : SurveyEntryForm)
    (hsec : sec ∈ st.sections) (he : e ∈ sec.entries)
    (hbad : validateSurveyEntry e ≠ []) :
    ∃ msg, validateForm st = some msg ∧
      handleSubmitEdit st ok = (.validationError msg, st) := by
  cases hv : validateForm st with
  | none =>
    exfalso
    have hsf : validateSectionsFrom 0 st.sections = none := by
      simp only [validateForm] at hv
      by_cases h1 : jsTrim st.surveyName = ""
      · rw [if_pos h1] at hv
        cases hv
      · rw [if_neg h1] at hv
        by_cases h2 : st.sections.isEmpty = true
        · rw [if_pos h2] at hv
          cases hv
        · rw [if_neg h2] at hv
          exact hv
    exact hbad (validateSectionsFrom_none_sound 0 st.sections hsf sec hsec e he)
  | some m =>
    exact ⟨m, rfl, by simp [handleSubmitEdit, hv]⟩

/-- A concrete question violating two rules at once: empty question text
and fewer than two choices on a RADIO question. -/
def badEntry1 : SurveyEntryForm :=
  .mk "b1" "" none none none .Radio true [] [] none false none none none none (some "b1")

/-- A second invalid question in the same section. -/
def badEntry2 : SurveyEntryForm :=
  .mk "b2" "" none none none .TEXT true [] [] none false none none none none (some "b2")

/-- The section holding the two invalid questions. -/
def sectionC7 : SurveySectionForm :=
  { title := "Sec", description := none, sectionNumber := some 1,
    entries := [badEntry1, badEntry2], id := some "s1" }

/-- Editor state with two invalid questions and three rule violations in
total. -/
def stC7 : FormState :=
  { surveyName := "Survey", sections := [sectionC7],
    originalSectionsSnapshot := [sectionC7], originalSectionsCount := 1,
    originalQuestionCounts := [2] }

/-- C7 counterexample: the tree carries three rule violations across two
invalid questions, yet the save surfaces exactly one message naming only
the first violated rule of the first invalid question; the full error
list is not surfaced. -/
theorem validation_gate_only_first_error :
    validateSurveyEntry badEntry1
      = ["Question text is required", "At least 2 choices are required"] ∧
    validateSurveyEntry badEntry2 = ["Question text is required"] ∧
    validateForm stC7 = some "Section \"Sec\", Question 1: Question text is required" ∧
    handleSubmitEdit stC7 (fun _ => true)
      = (.validationError "Section \"Sec\", Question 1: Question text is required", stC7) :=
  ⟨rfl, rfl, rfl, rfl⟩

/-- Witness for the amended C7 at the concrete state. -/
theorem validation_gate_blocks_save_witness :
    ∃ msg, validateForm stC7 = some msg ∧
      handleSubmitEdit stC7 (fun _ => true) = (.validationError msg, stC7) :=
  validation_gate_blocks_save stC7 (fun _ => true) sectionC7 badEntry1
    (by simp [stC7]) (by simp [sectionC7]) (by decide)

/-!
Claims C1 and C3: a working tree whose image file slots are all empty
produces an empty plan against its own deep copy.
-/

/-- No freshly attached file anywhere the change detectors look in one
entry: its own slot, its choices and its grid rows. -/
def entryNoFilesB (e : SurveyEntryForm) : Bool :=
  e.questionImageFile.isNone && e.choices.all (fun c => c.choiceImageFile.isNone) &&
    e.gridRows.all (fun r => r.rowImageFile.isNone)

/-- No freshly attached file in any entry of any section. -/
def sectionsNoFilesB (l : List SurveySectionForm) : Bool :=
  l.all (fun s => s.entries.all entryNoFilesB)

theorem clearFilesSection_title (s : SurveySectionForm) :
    (clearFilesSection s).title = s.title := rfl

theorem clearFilesSection_entries (s : SurveySectionForm) :
    (clearFilesSection s).entries = s.entries.map clearFilesEntry := rfl

theorem hasSectionChanged_clearFiles (s : SurveySectionForm) :
    hasSectionChanged s (clearFilesSection s) = false := by
  simp [hasSectionChanged, clearFilesSection]

theorem hasEntryChanged_clearFiles (e : SurveyEntryForm) (h : e.questionImageFile = none) :
    hasEntryChanged e (clearFilesEntry e) = false := by
  cases e with
  | mk cid q qn qi qif qt ir cs grs hti ifu pqc tcc pqi tci i =>
    simp only [SurveyEntryForm.questionImageFile] at h
    subst h
    simp [hasEntryChanged, clearFilesEntry, SurveyEntryForm.question,
      SurveyEntryForm.questionType, SurveyEntryForm.isRequired, SurveyEntryForm.hasTextInput,
      SurveyEntryForm.questionImage, SurveyEntryForm.questionImageFile]

theorem hasChoiceChanged_clearFiles (c : SurveyChoiceForm) (h : c.choiceImageFile = none) :
    hasChoiceChanged c (clearFilesChoice c) = false := by
  cases c with
  | mk cid co ct ci cif i hti hf fu =>
    simp only [SurveyChoiceForm.choiceImageFile] at h
    subst h
    simp [hasChoiceChanged, clearFilesChoice, SurveyChoiceForm.choiceText,
      SurveyChoiceForm.choiceOrder, SurveyChoiceForm.hasTextInput,
      SurveyChoiceForm.choiceImage, SurveyChoiceForm.choiceImageFile]

theorem hasGridRowChanged_clearFiles (r : SurveyGridRowForm) (h : r.rowImageFile = none) :
    hasGridRowChanged r (clearFilesRow r) = false := by
  cases r with
  | mk i n t img f =>
    simp only at h
    subst h
    simp [hasGridRowChanged, clearFilesRow]

theorem clearFilesEntry_choices (e : SurveyEntryForm) :
    (clearFilesEntry e).choices = clearFilesChoices e.choices := by
  cases e with
  | mk cid q qn qi qif qt ir cs grs hti ifu pqc tcc pqi tci i => rfl

theorem clearFilesEntry_gridRows (e : SurveyEntryForm) :
    (clearFilesEntry e).gridRows = e.gridRows.map clearFilesRow := by
  cases e with
  | mk cid q qn qi qif qt ir cs grs hti ifu pqc tcc pqi tci i => rfl

theorem choiceUpdateOpsGo_clearFiles (ci : Nat) (cs : List SurveyChoiceForm)
    (h : cs.all (fun c => c.choiceImageFile.isNone) = true) :
    choiceUpdateOpsGo ci cs (clearFilesChoices cs) = [] := by
  induction cs generalizing ci with
  | nil => rfl
  | cons c rest ih =>
    simp only [List.all_cons, Bool.and_eq_true] at h
    simp only [clearFilesChoices, choiceUpdateOpsGo,
      hasChoiceChanged_clearFiles c (Option.isNone_iff_eq_none.mp h.1), if_false,
      ih (ci + 1) h.2, List.append_nil]
    split <;> rfl

theorem rowUpdateOpsGo_clearFiles (ri : Nat) (rs : List SurveyGridRowForm)
    (h : rs.all (fun r => r.rowImageFile.isNone) = true) :
    rowUpdateOpsGo ri rs (rs.map clearFilesRow) = [] := by
  induction rs generalizing ri with
  | nil => rfl
  | cons r rest ih =>
    simp only [List.all_cons, Bool.and_eq_true] at h
    simp only [List.map_cons, rowUpdateOpsGo,
      hasGridRowChanged_clearFiles r (Option.isNone_iff_eq_none.mp h.1), if_false,
      ih (ri + 1) h.2, List.append_nil]
    split <;> rfl

theorem entryUpdateOpsGo_clearFiles (es : List SurveyEntryForm)
    (h : es.all entryNoFilesB = true) :
    entryUpdateOpsGo es (es.map clearFilesEntry) = [] := by
  induction es with
  | nil => rfl
  | cons e rest ih =>
    simp only [List.all_cons, Bool.and_eq_true] at h
    have he := h.1
    simp only [entryNoFilesB, Bool.and_eq_true] at he
    simp only [List.map_cons, entryUpdateOpsGo,
      hasEntryChanged_clearFiles e (Option.isNone_iff_eq_none.mp he.1.1), if_false,
      clearFilesEntry_choices, clearFilesEntry_gridRows,
      choiceUpdateOpsGo_clearFiles 0 e.choices he.1.2,
      rowUpdateOpsGo_clearFiles 0 e.gridRows he.2,
      ih h.2, List.append_nil, List.nil_append]
    split <;> simp

theorem sectionUpdateOpsGo_clearFiles (si : Nat) (l : List SurveySectionForm) :
    sectionUpdateOpsGo si l (deepCopySections l) = [] := by
  induction l generalizing si with
  | nil => rfl
  | cons s rest ih =>
    simp only [deepCopySections, List.map_cons, sectionUpdateOpsGo,
      hasSectionChanged_clearFiles s, Bool.and_false, if_false, List.nil_append]
    exact ih (si + 1)

theorem entrySectionOpsGo_clearFiles (l : List SurveySectionForm)
    (h : sectionsNoFilesB l = true) :
    entrySectionOpsGo l (deepCopySections l) = [] := by
  induction l with
  | nil => rfl
  | cons s rest ih =>
    simp only [sectionsNoFilesB, List.all_cons, Bool.and_eq_true] at h
    simp only [deepCopySections, List.map_cons, entrySectionOpsGo, clearFilesSection_entries,
      entryUpdateOpsGo_clearFiles s.entries h.1, List.nil_append]
    exact ih h.2

theorem newEntryOpsGo_self (limit : Nat) (l : List SurveySectionForm) :
    newEntryOpsGo limit (l.map (fun s => s.entries.length)) l = [] := by
  induction l generalizing limit with
  | nil => cases limit <;> rfl
  | cons s rest ih =>
    cases limit with
    | zero => rfl
    | succ n =>
      simp only [List.map_cons, newEntryOpsGo, List.headD_cons, List.tail_cons,
        Nat.lt_irrefl, decide_eq_false, Bool.false_and, if_false, List.nil_append]
      exact ih n

/-- The plan of a working tree without attached files, diffed against its
own deep copy with matching original counts, is empty. -/
theorem planEditOps_loadShape (name : String) (sections : List SurveySectionForm)
    (hnf : sectionsNoFilesB sections = true) :
    planEditOps
      { surveyName := name, sections := sections,
        originalSectionsSnapshot := deepCopySections sections,
        originalSectionsCount := sections.length,
        originalQuestionCounts := sections.map (fun s => s.entries.length) } = [] := by
  unfold planEditOps
  rw [sectionUpdateOpsGo_clearFiles, entrySectionOpsGo_clearFiles sections hnf,
    newEntryOpsGo_self, List.drop_length]
  rfl

/-- A tree freshly rebuilt from a server response holds no attached files
anywhere. -/
theorem transformChoice_choiceImageFile (fus : List SurveyEntryResponse) (eId : String)
    (c : SurveyChoiceResponse) : (transformChoice fus eId c).choiceImageFile = none := rfl

theorem transformRow_rowImageFile (r : SurveyGridRowResponse) :
    (transformRow r).rowImageFile = none := rfl

theorem transformMainEntry_questionImageFile (fus : List SurveyEntryResponse)
    (e : SurveyEntryResponse) : (transformMainEntry fus e).questionImageFile = none := rfl

theorem transformMainEntry_choices (fus : List SurveyEntryResponse) (e : SurveyEntryResponse) :
    (transformMainEntry fus e).choices = e.choices.map (transformChoice fus e.id) := rfl

theorem transformMainEntry_gridRows (fus : List SurveyEntryResponse) (e : SurveyEntryResponse) :
    (transformMainEntry fus e).gridRows = e.gridRows.map transformRow := rfl

theorem transform_noFiles (resp : SurveyDetailResponse) :
    sectionsNoFilesB (transformResponseToForm resp) = true := by
  rw [sectionsNoFilesB, List.all_eq_true]
  intro sf hsf
  rw [transformResponseToForm] at hsf
  obtain ⟨sec, hsec, rfl⟩ := List.mem_map.mp hsf
  have hent : (transformSection sec).entries
      = (sec.entries.filter (fun e => !e.isFollowUp)).map
          (transformMainEntry (sec.entries.filter (fun e => e.isFollowUp))) := rfl
  rw [hent, List.all_eq_true]
  intro ef hef
  obtain ⟨e, he, rfl⟩ := List.mem_map.mp hef
  simp [entryNoFilesB, transformMainEntry_questionImageFile, transformMainEntry_choices,
    transformMainEntry_gridRows, List.all_map, Function.comp,
    transformChoice_choiceImageFile, transformRow_rowImageFile, List.all_eq_true]

/-- The editor state right after loading a survey in edit mode with no
focus action: working tree and snapshot both come from
transformResponseToForm, and the original counts record its shape. -/
def loadedState (name : String) (resp : SurveyDetailResponse) : FormState :=
  { surveyName := name, sections := transformResponseToForm resp
    originalSectionsSnapshot := deepCopySections (transformResponseToForm resp)
    originalSectionsCount := (transformResponseToForm resp).length
    originalQuestionCounts := (transformResponseToForm resp).map (fun s => s.entries.length) }

/-- C1: a survey tree loaded from a server response and saved with zero
edits detects zero changes, issues no operations, and reports the
no-changes toast. -/
theorem roundtrip_noop_save (name : String) (resp : SurveyDetailResponse) (ok : Nat → Bool)
    (hval : validateForm (loadedState name resp) = none) :
    planEditOps (loadedState name resp) = [] ∧
    handleSubmitEdit (loadedState name resp) ok = (.noChanges, loadedState name resp) ∧
    outcomeMessage (handleSubmitEdit (loadedState name resp) ok).1 = "No changes to save" := by
  have hplan : planEditOps (loadedState name resp) = [] :=
    planEditOps_loadShape name (transformResponseToForm resp) (transform_noFiles resp)
  have hrun : handleSubmitEdit (loadedState name resp) ok
      = (.noChanges, loadedState name resp) := by
    simp [handleSubmitEdit, hval, hplan, opsWeight]
  refine ⟨hplan, hrun, ?_⟩
  rw [hrun]
  rfl

/-- Witness for C1 at a concrete response. -/
theorem roundtrip_noop_save_witness :
    planEditOps (loadedState "My Survey" respC8) = [] ∧
    handleSubmitEdit (loadedState "My Survey" respC8) (fun _ => true)
      = (.noChanges, loadedState "My Survey" respC8) ∧
    outcomeMessage (handleSubmitEdit (loadedState "My Survey" respC8) (fun _ => true)).1
      = "No changes to save" :=
  roundtrip_noop_save "My Survey" respC8 (fun _ => true) (by rfl)

/-!
Kinds of planned operations and the shape of the edit-mode plan.
-/

/-- Update operations: section, entry, choice or grid row update. -/
def isUpdateOp : PlannedOp → Bool
  | .updateSection _ _ _ _ => true
  | .updateEntry _ _ => true
  | .updateChoice _ _ => true
  | .updateGridRow _ _ => true
  | _ => false

/-- The bulk section-creation operation. -/
def isBulkOp : PlannedOp → Bool
  | .bulkAddSections _ => true
  | _ => false

/-- A standalone choice or grid row creation. -/
def isCreateChoiceOrRowOp : PlannedOp → Bool
  | .addChoice _ _ => true
  | .addGridRow _ _ => true
  | _ => false

/-- An entry creation. -/
def isAddEntryOp : PlannedOp → Bool
  | .addEntry _ _ => true
  | _ => false

/-- The operations the claim C4 orders first: the entry update and the
deletions of obsolete choices. -/
def isEntryUpdateOrChoiceDelete : PlannedOp → Bool
  | .updateEntry _ _ => true
  | .deleteChoice _ => true
  | _ => false

theorem mem_sectionUpdateOpsGo_isUpdate :
    ∀ (si : Nat) (a b : List SurveySectionForm) (op : PlannedOp),
      op ∈ sectionUpdateOpsGo si a b → isUpdateOp op = true := by
  intro si a
  induction a generalizing si with
  | nil =>
    intro b op h
    simp [sectionUpdateOpsGo] at h
  | cons c cs ih =>
    intro b op h
    cases b with
    | nil => simp [sectionUpdateOpsGo] at h
    | cons o os =>
      simp only [sectionUpdateOpsGo, List.mem_append] at h
      rcases h with h | h
      · split at h
        · rcases List.mem_singleton.mp h with rfl
          rfl
        · cases h
      · exact ih (si + 1) os op h

theorem mem_choiceUpdateOpsGo_isUpdate :
    ∀ (ci : Nat) (a b : List SurveyChoiceForm) (op : PlannedOp),
      op ∈ choiceUpdateOpsGo ci a b → isUpdateOp op = true := by
  intro ci a
  induction a generalizing ci with
  | nil =>
    intro b op h
    simp [choiceUpdateOpsGo] at h
  | cons c cs ih =>
    intro b op h
    cases b with
    | nil => simp [choiceUpdateOpsGo] at h
    | cons o os =>
      simp only [choiceUpdateOpsGo, List.mem_append] at h
      rcases h with h | h
      · split at h
        · split at h
          · rcases List.mem_singleton.mp h with rfl
            rfl
          · cases h
        · cases h
      · exact ih (ci + 1) os op h

theorem mem_rowUpdateOpsGo_isUpdate :
    ∀ (ri : Nat) (a b : List SurveyGridRowForm) (op : PlannedOp),
      op ∈ rowUpdateOpsGo ri a b → isUpdateOp op = true := by
  intro ri a
  induction a generalizing ri with
  | nil =>
    intro b op h
    simp [rowUpdateOpsGo] at h
  | cons r rs ih =>
    intro b op h
    cases b with
    | nil => simp [rowUpdateOpsGo] at h
    | cons o os =>
      simp only [rowUpdateOpsGo, List.mem_append] at h
      rcases h with h | h
      · split at h
        · split at h
          · rcases List.mem_singleton.mp h with rfl
            rfl
          · cases h
        · cases h
      · exact ih (ri + 1) os op h

theorem mem_entryUpdateOpsGo_isUpdate :
    ∀ (a b : List SurveyEntryForm) (op : PlannedOp),
      op ∈ entryUpdateOpsGo a b → isUpdateOp op = true := by
  intro a
  induction a with
  | nil =>
    intro b op h
    simp [entryUpdateOpsGo] at h
  | cons c cs ih =>
    intro b op h
    cases b with
    | nil => simp [entryUpdateOpsGo] at h
    | cons o os =>
      simp only [entryUpdateOpsGo, List.mem_append] at h
      rcases h with h | h
      · split at h
        · simp only [List.mem_append] at h
          rcases h with (h | h) | h
          · split at h
            · rcases List.mem_singleton.mp h with rfl
              rfl
            · cases h
          · exact mem_choiceUpdateOpsGo_isUpdate 0 c.choices o.choices op h
          · split at h
            · exact mem_rowUpdateOpsGo_isUpdate 0 c.gridRows o.gridRows op h
            · cases h
        · cases h
      · exact ih os op h

theorem mem_entrySectionOpsGo_isUpdate :
    ∀ (a b : List SurveySectionForm) (op : PlannedOp),
      op ∈ entrySectionOpsGo a b → isUpdateOp op = true := by
  intro a
  induction a with
  | nil =>
    intro b op h
    simp [entrySectionOpsGo] at h
  | cons c cs ih =>
    intro b op h
    cases b with
    | nil => simp [entrySectionOpsGo] at h
    | cons o os =>
      simp only [entrySectionOpsGo, List.mem_append] at h
      rcases h with h | h
      · exact mem_entryUpdateOpsGo_isUpdate c.entries o.entries op h
      · exact ih os op h

theorem mem_newEntryOpsGo_shape :
    ∀ (l : List SurveySectionForm) (limit : Nat) (counts : List Nat) (op : PlannedOp),
      op ∈ newEntryOpsGo limit counts l →
      ∃ i s e, i < limit ∧ l[i]? = some s ∧ strTruthy s.id = true ∧ e ∈ s.entries ∧
        op = .addEntry (s.id.getD "") (addEntryDataOf e) := by
  intro l
  induction l with
  | nil =>
    intro limit counts op h
    cases limit with
    | zero => simp [newEntryOpsGo] at h
    | succ n => simp [newEntryOpsGo] at h
  | cons s rest ih =>
    intro limit counts op h
    cases limit with
    | zero => simp [newEntryOpsGo] at h
    | succ n =>
      simp only [newEntryOpsGo, List.mem_append] at h
      rcases h with h | h
      · split at h
        case isTrue hcond =>
          obtain ⟨e, he, rfl⟩ := List.mem_map.mp h
          simp only [Bool.and_eq_true] at hcond
          exact ⟨0, s, e, Nat.succ_pos n, by simp, hcond.2, List.drop_subset _ _ he, rfl⟩
        case isFalse => cases h
      · obtain ⟨i, s2, e, hi, hget, hid, hee, heq⟩ := ih n counts.tail op h
        exact ⟨i + 1, s2, e, Nat.succ_lt_succ hi, by simpa using hget, hid, hee, heq⟩

theorem bulkPayloadGo_length (base : Nat) :
    ∀ (idx : Nat) (l : List SurveySectionForm), (bulkPayloadGo base idx l).length = l.length := by
  intro idx l
  induction l generalizing idx with
  | nil => rfl
  | cons s rest ih => simp [bulkPayloadGo, ih]

/-- Every operation of the edit-mode plan is a field update, the single
bulk creation of the new sections, or an addEntry targeting one of the
first originalSectionsCount sections. -/
theorem mem_planEditOps_cases (st : FormState) (op : PlannedOp) (h : op ∈ planEditOps st) :
    isUpdateOp op = true ∨
    (op = .bulkAddSections
        (bulkPayloadGo st.originalSectionsCount 0 (st.sections.drop st.originalSectionsCount)) ∧
      st.sections.drop st.originalSectionsCount ≠ []) ∨
    (∃ i s e, i < st.originalSectionsCount ∧ st.sections[i]? = some s ∧
      strTruthy s.id = true ∧ e ∈ s.entries ∧
      op = .addEntry (s.id.getD "") (addEntryDataOf e)) := by
  simp only [planEditOps, List.mem_append] at h
  rcases h with ((h | h) | h) | h
  · exact Or.inl (mem_sectionUpdateOpsGo_isUpdate 0 _ _ op h)
  · exact Or.inl (mem_entrySectionOpsGo_isUpdate _ _ op h)
  · split at h
    case isTrue hemp => cases h
    case isFalse hemp =>
      rcases List.mem_singleton.mp h with rfl
      exact Or.inr (Or.inl ⟨rfl, fun hnil => hemp (by simp [hnil])⟩)
  · exact Or.inr (Or.inr (mem_newEntryOpsGo_shape st.sections st.originalSectionsCount
      st.originalQuestionCounts op h))

theorem countsGo_all_ok (ok : Nat → Bool) (hok : ∀ i, ok i = true) :
    ∀ (n : Nat) (ops : List PlannedOp), countsGo ok n ops = (opsWeight ops, 0) := by
  intro n ops
  induction ops generalizing n with
  | nil => rfl
  | cons op rest ih =>
    simp only [countsGo, hok n, if_true, ih (n + 1), opsWeight, List.map_cons, List.sum_cons]
    exact Prod.ext (by omega) rfl

theorem countsGo_sum (ok : Nat → Bool) :
    ∀ (n : Nat) (ops : List PlannedOp),
      (countsGo ok n ops).1 + (countsGo ok n ops).2 = opsWeight ops := by
  intro n ops
  induction ops generalizing n with
  | nil => rfl
  | cons op rest ih =>
    have hrec := ih (n + 1)
    simp only [countsGo, opsWeight, List.map_cons, List.sum_cons] at hrec ⊢
    split <;> simp <;> omega

theorem isUpdateOp_weight (op : PlannedOp) (h : isUpdateOp op = true) : opWeight op = 1 := by
  cases op <;> simp [isUpdateOp] at h ⊢ <;> rfl

theorem opWeight_pos_of_mem_plan (st : FormState) (op : PlannedOp)
    (h : op ∈ planEditOps st) : 0 < opWeight op := by
  rcases mem_planEditOps_cases st op h with hu | ⟨rfl, hne⟩ | ⟨i, s, e, _, _, _, _, rfl⟩
  · rw [isUpdateOp_weight op hu]
    omega
  · simp only [opWeight, bulkPayloadGo_length]
    exact List.length_pos.mpr hne
  · simp [opWeight]

theorem planEditOps_nil_of_weight_zero (st : FormState)
    (h : opsWeight (planEditOps st) = 0) : planEditOps st = [] := by
  cases hops : planEditOps st with
  | nil => rfl
  | cons op rest =>
    exfalso
    have hpos : 0 < opWeight op :=
      opWeight_pos_of_mem_plan st op (hops ▸ List.mem_cons_self op rest)
    rw [hops] at h
    simp only [opsWeight, List.map_cons, List.sum_cons] at h
    omega

/-- The state the source writes back after a fully successful save. -/
def afterState (st : FormState) : FormState :=
  { st with
      originalSectionsSnapshot := deepCopySections st.sections
      originalSectionsCount := st.sections.length
      originalQuestionCounts := st.sections.map (fun s => s.entries.length) }

/-- C3 (amended): when the working tree holds no freshly attached image
files, a save whose operations all succeed is idempotent: the immediate
re-run detects zero changes and issues zero operations. The restriction
is forced by the detector treating an attached File as always changed. -/
theorem save_idempotent_when_no_files (st : FormState) (ok ok2 : Nat → Bool)
    (hnf : sectionsNoFilesB st.sections = true)
    (hok : ∀ i, ok i = true)
    (hval : validateForm st = none) :
    handleSubmitEdit (handleSubmitEdit st ok).2 ok2
      = (.noChanges, (handleSubmitEdit st ok).2) ∧
    planEditOps (handleSubmitEdit st ok).2 = [] := by
  have hcnt := countsGo_all_ok ok hok 0 (planEditOps st)
  by_cases hz : opsWeight (planEditOps st) = 0
  · have hops := planEditOps_nil_of_weight_zero st hz
    have hfirst : handleSubmitEdit st ok = (.noChanges, st) := by
      simp [handleSubmitEdit, hval, hz]
    rw [hfirst]
    exact ⟨by simp [handleSubmitEdit, hval, hz], hops⟩
  · have hfirst : handleSubmitEdit st ok
        = (.allSaved (opsWeight (planEditOps st)), afterState st) := by
      simp [handleSubmitEdit, hval, hcnt, hz, afterState]
    have hval2 : validateForm (afterState st) = none := hval
    have hplan2 : planEditOps (afterState st) = [] :=
      planEditOps_loadShape st.surveyName st.sections hnf
    rw [hfirst]
    exact ⟨by simp [handleSubmitEdit, hval2, hplan2, opsWeight], hplan2⟩

/-- The C3 working entry: an existing question with a freshly attached
image file. -/
def entryC3cur : SurveyEntryForm :=
  .mk "e1" "Q" (some 1) none (some ⟨"img"⟩) .TEXT true [] [] (some false) false
    none none none none (some "e1")

/-- The C3 snapshot entry: the same question without the file. -/
def entryC3orig : SurveyEntryForm :=
  .mk "e1" "Q" (some 1) none none .TEXT true [] [] (some false) false
    none none none none (some "e1")

/-- The C3 working section. -/
def sectionC3cur : SurveySectionForm :=
  { title := "Sec", description := none, sectionNumber := some 1,
    entries := [entryC3cur], id := some "s1" }

/-- The C3 snapshot section. -/
def sectionC3orig : SurveySectionForm :=
  { title := "Sec", description := none, sectionNumber := some 1,
    entries := [entryC3orig], id := some "s1" }

/-- The C3 editor state: one existing question whose only edit is a
freshly attached image file. -/
def stC3 : FormState :=
  { surveyName := "Survey", sections := [sectionC3cur],
    originalSectionsSnapshot := [sectionC3orig], originalSectionsCount := 1,
    originalQuestionCounts := [1] }

/-- C3 counterexample: the first save fully succeeds (one update), yet the
immediate re-run detects the same change again and issues one operation
instead of zero, because the attached File survives in the working tree
and the detector always reports an attached File as changed. -/
theorem save_not_idempotent_with_file :
    (handleSubmitEdit stC3 (fun _ => true)).1 = .allSaved 1 ∧
    (handleSubmitEdit (handleSubmitEdit stC3 (fun _ => true)).2 (fun _ => true)).1
      = .allSaved 1 ∧
    (handleSubmitEdit (handleSubmitEdit stC3 (fun _ => true)).2 (fun _ => true)).1
      ≠ .noChanges ∧
    planEditOps (handleSubmitEdit stC3 (fun _ => true)).2 ≠ [] := by
  refine ⟨rfl, rfl, ?_, ?_⟩
  · decide
  · decide

/-- Witness for the amended C3 at a concrete no-file state. -/
theorem save_idempotent_when_no_files_witness :
    handleSubmitEdit (handleSubmitEdit (loadedState "My Survey" respC8) (fun _ => true)).2
        (fun _ => true)
      = (.noChanges, (handleSubmitEdit (loadedState "My Survey" respC8) (fun _ => true)).2) ∧
    planEditOps (handleSubmitEdit (loadedState "My Survey" respC8) (fun _ => true)).2 = [] :=
  save_idempotent_when_no_files (loadedState "My Survey" respC8) (fun _ => true) (fun _ => true)
    (transform_noFiles respC8) (fun _ => rfl) (by rfl)

/-!
Claim C5: mixed-outcome reporting and snapshot update.
-/

/-- C5 (amended): when some operations succeed and some fail, the save
reports the exact succeeded and failed counts, but it leaves the whole
state untouched: neither the working tree nor the snapshot changes, not
even for the nodes whose operations succeeded. The snapshot is rewritten,
wholesale, only when every operation succeeds. -/
theorem mixed_failure_report (st : FormState) (ok : Nat → Bool)
    (hval : validateForm st = none)
    (hs : 0 < (countsGo ok 0 (planEditOps st)).1)
    (hf : 0 < (countsGo ok 0 (planEditOps st)).2) :
    handleSubmitEdit st ok
      = (.mixedOutcome (countsGo ok 0 (planEditOps st)).1
          (countsGo ok 0 (planEditOps st)).2, st) ∧
    outcomeMessage (handleSubmitEdit st ok).1
      = toString (countsGo ok 0 (planEditOps st)).1 ++ " change(s) saved, "
        ++ toString (countsGo ok 0 (planEditOps st)).2 ++ " failed" := by
  have hsum := countsGo_sum ok 0 (planEditOps st)
  have hz : ¬opsWeight (planEditOps st) = 0 := by omega
  have hf0 : ¬(countsGo ok 0 (planEditOps st)).2 = 0 := by omega
  have h1 : handleSubmitEdit st ok
      = (.mixedOutcome (countsGo ok 0 (planEditOps st)).1
          (countsGo ok 0 (planEditOps st)).2, st) := by
    simp [handleSubmitEdit, hval, hz, hf0, hs]
  refine ⟨h1, ?_⟩
  rw [h1]
  rfl

/-- The C5 working entry: an existing question with edited text. -/
def entryC5cur : SurveyEntryForm :=
  .mk "e1" "Q new" (some 1) none none .TEXT true [] [] (some false) false
    none none none none (some "e1")

/-- The C5 snapshot entry. -/
def entryC5orig : SurveyEntryForm :=
  .mk "e1" "Q old" (some 1) none none .TEXT true [] [] (some false) false
    none none none none (some "e1")

/-- The C5 working section, with an edited title. -/
def sectionC5cur : SurveySectionForm :=
  { title := "New Title", description := none, sectionNumber := some 1,
    entries := [entryC5cur], id := some "s1" }

/-- The C5 snapshot section. -/
def sectionC5orig : SurveySectionForm :=
  { title := "Old Title", description := none, sectionNumber := some 1,
    entries := [entryC5orig], id := some "s1" }

/-- The C5 editor state: a section title edit and an unrelated entry text
edit. -/
def stC5 : FormState :=
  { surveyName := "Survey", sections := [sectionC5cur],
    originalSectionsSnapshot := [sectionC5orig], originalSectionsCount := 1,
    originalQuestionCounts := [1] }

/-- C5 counterexample: the section update (operation 0) succeeds and the
entry update (operation 1) fails; the report shows 1 succeeded and 1
failed as claimed, but the snapshot is not updated at all: its section
title is still the old one, while the claim requires the succeeded
section-title change to be merged into the snapshot. -/
theorem mixed_failure_snapshot_not_updated :
    handleSubmitEdit stC5 (fun i => i == 0) = (.mixedOutcome 1 1, stC5) ∧
    outcomeMessage (handleSubmitEdit stC5 (fun i => i == 0)).1 = "1 change(s) saved, 1 failed" ∧
    ((handleSubmitEdit stC5 (fun i => i == 0)).2.originalSectionsSnapshot.head?.map
      SurveySectionForm.title) = some "Old Title" ∧
    (stC5.sections.head?.map SurveySectionForm.title) = some "New Title" :=
  ⟨rfl, rfl, rfl, rfl⟩

/-- Witness for the amended C5 at the concrete state. -/
theorem mixed_failure_report_witness :
    handleSubmitEdit stC5 (fun i => i == 0)
      = (.mixedOutcome (countsGo (fun i => i == 0) 0 (planEditOps stC5)).1
          (countsGo (fun i => i == 0) 0 (planEditOps stC5)).2, stC5) ∧
    outcomeMessage (handleSubmitEdit stC5 (fun i => i == 0)).1
      = toString (countsGo (fun i => i == 0) 0 (planEditOps stC5)).1 ++ " change(s) saved, "
        ++ toString (countsGo (fun i => i == 0) 0 (planEditOps stC5)).2 ++ " failed" :=
  mixed_failure_report stC5 (fun i => i == 0) (by rfl) (by decide) (by decide)

/-!
Claim C9: bulk creation of new sections.
-/

theorem isUpdateOp_not_bulk (op : PlannedOp) (h : isUpdateOp op = true) :
    isBulkOp op = false := by
  cases op <;> simp_all [isUpdateOp, isBulkOp]

theorem isUpdateOp_not_create (op : PlannedOp) (h : isUpdateOp op = true) :
    isCreateChoiceOrRowOp op = false := by
  cases op <;> simp_all [isUpdateOp, isCreateChoiceOrRowOp]

theorem isUpdateOp_not_addEntry (op : PlannedOp) (h : isUpdateOp op = true) :
    isAddEntryOp op = false := by
  cases op <;> simp_all [isUpdateOp, isAddEntryOp]

/-- C9: when the working tree holds sections beyond the original count,
the plan carries exactly one bulk-create operation, whose payload is the
full flattened content (entries, choices, grid rows and choice-embedded
follow-ups) of every new section; the plan never contains a standalone
choice or grid row creation, and every entry creation in it targets one
of the first originalSectionsCount sections, never a new one. -/
theorem bulk_create_new_sections (st : FormState)
    (hnew : st.originalSectionsCount < st.sections.length) :
    (planEditOps st).filter isBulkOp
      = [.bulkAddSections
          (bulkPayloadGo st.originalSectionsCount 0
            (st.sections.drop st.originalSectionsCount))] ∧
    (∀ op ∈ planEditOps st, isCreateChoiceOrRowOp op = false) ∧
    (∀ op ∈ planEditOps st, isAddEntryOp op = true →
      ∃ i s e, i < st.originalSectionsCount ∧ st.sections[i]? = some s ∧
        strTruthy s.id = true ∧ e ∈ s.entries ∧
        op = .addEntry (s.id.getD "") (addEntryDataOf e)) := by
  have hne : st.sections.drop st.originalSectionsCount ≠ [] := by
    intro hnil
    have hlen := congrArg List.length hnil
    rw [List.length_drop] at hlen
    simp only [List.length_nil] at hlen
    omega
  refine ⟨?_, ?_, ?_⟩
  · have h1 : (sectionUpdateOpsGo 0 st.sections st.originalSectionsSnapshot).filter isBulkOp
        = [] :=
      List.filter_eq_nil_iff.mpr (fun op h => by
        simp [isUpdateOp_not_bulk op (mem_sectionUpdateOpsGo_isUpdate 0 _ _ op h)])
    have h2 : (entrySectionOpsGo st.sections st.originalSectionsSnapshot).filter isBulkOp
        = [] :=
      List.filter_eq_nil_iff.mpr (fun op h => by
        simp [isUpdateOp_not_bulk op (mem_entrySectionOpsGo_isUpdate _ _ op h)])
    have h4 : (newEntryOpsGo st.originalSectionsCount st.originalQuestionCounts
          st.sections).filter isBulkOp = [] :=
      List.filter_eq_nil_iff.mpr (fun op h => by
        obtain ⟨i, s, e, _, _, _, _, rfl⟩ :=
          mem_newEntryOpsGo_shape st.sections st.originalSectionsCount
            st.originalQuestionCounts op h
        simp [isBulkOp])
    unfold planEditOps
    rw [List.filter_append, List.filter_append, List.filter_append, h1, h2, h4,
      if_neg (fun hemp => hne (List.isEmpty_iff.mp hemp))]
    rfl
  · intro op h
    rcases mem_planEditOps_cases st op h with hu | ⟨rfl, _⟩ | ⟨i, s, e, _, _, _, _, rfl⟩
    · exact isUpdateOp_not_create op hu
    · rfl
    · rfl
  · intro op h hadd
    rcases mem_planEditOps_cases st op h with hu | ⟨rfl, _⟩ | hshape
    · rw [isUpdateOp_not_addEntry op hu] at hadd
      cases hadd
    · cases hadd
    · exact hshape

/-- The C9 pre-existing section, identical in working tree and snapshot. -/
def sectionC9old : SurveySectionForm :=
  { title := "Old Sec", description := none, sectionNumber := some 1,
    entries := [entryC3orig], id := some "s1" }

/-- The C9 brand-new section added in the editor: a new entry with a new
choice carrying a new nested follow-up. -/
def sectionC9new : SurveySectionForm :=
  { title := "New Sec", description := none, sectionNumber := some 2,
    entries := [.mk "ne1" "NQ" (some 2) none none .Radio true
      [choiceA, choiceB] [] (some false) false none none none none none],
    id := none }

/-- The C9 editor state: one original section plus one brand-new one. -/
def stC9 : FormState :=
  { surveyName := "Survey", sections := [sectionC9old, sectionC9new],
    originalSectionsSnapshot := [sectionC9old], originalSectionsCount := 1,
    originalQuestionCounts := [1] }

/-- Witness for C9 at the concrete state. -/
theorem bulk_create_new_sections_witness :
    (planEditOps stC9).filter isBulkOp
      = [.bulkAddSections
          (bulkPayloadGo stC9.originalSectionsCount 0
            (stC9.sections.drop stC9.originalSectionsCount))] ∧
    (∀ op ∈ planEditOps stC9, isCreateChoiceOrRowOp op = false) ∧
    (∀ op ∈ planEditOps stC9, isAddEntryOp op = true →
      ∃ i s e, i < stC9.originalSectionsCount ∧ stC9.sections[i]? = some s ∧
        strTruthy s.id = true ∧ e ∈ s.entries ∧
        op = .addEntry (s.id.getD "") (addEntryDataOf e)) :=
  bulk_create_new_sections stC9 (by decide)

/-!
Claim C4: ordering of the operations of a type-changing question save.
-/

theorem mem_saveQEntryUpdateOps_kind (cur : SurveyEntryForm) (origE : Option SurveyEntryForm)
    (op : PlannedOp) (h : op ∈ saveQEntryUpdateOps cur origE) :
    isEntryUpdateOrChoiceDelete op = true ∧ isCreateChoiceOrRowOp op = false := by
  unfold saveQEntryUpdateOps at h
  split at h
  · split at h
    · rcases List.mem_singleton.mp h with rfl
      exact ⟨rfl, rfl⟩
    · cases h
  · cases h

theorem mem_saveQChoiceDeleteOps_kind (cur : SurveyEntryForm) (origE : Option SurveyEntryForm)
    (op : PlannedOp) (h : op ∈ saveQChoiceDeleteOps cur origE) :
    isEntryUpdateOrChoiceDelete op = true ∧ isCreateChoiceOrRowOp op = false := by
  simp only [saveQChoiceDeleteOps, List.mem_filterMap] at h
  obtain ⟨oc, hmem, heq⟩ := h
  split at heq
  · cases heq
    exact ⟨rfl, rfl⟩
  · cases heq

theorem mem_saveQChoiceOpsGo_kind (entryId : String) (origChoices : List SurveyChoiceForm) :
    ∀ (ci : Nat) (cs : List SurveyChoiceForm) (op : PlannedOp),
      op ∈ saveQChoiceOpsGo entryId origChoices ci cs →
      isEntryUpdateOrChoiceDelete op = false := by
  intro ci cs
  induction cs generalizing ci with
  | nil =>
    intro op h
    cases h
  | cons c rest ih =>
    intro op h
    simp only [saveQChoiceOpsGo, List.mem_append] at h
    rcases h with h | h
    · split at h
      · rcases List.mem_singleton.mp h with rfl
        rfl
      · split at h
        · split at h
          · rcases List.mem_singleton.mp h with rfl
            rfl
          · cases h
        · cases h
    · exact ih (ci + 1) op h

theorem mem_saveQRowDeleteOps_kind (cur : SurveyEntryForm) (origE : Option SurveyEntryForm)
    (op : PlannedOp) (h : op ∈ saveQRowDeleteOps cur origE) :
    isEntryUpdateOrChoiceDelete op = false := by
  simp only [saveQRowDeleteOps, List.mem_filterMap] at h
  obtain ⟨orr, hmem, heq⟩ := h
  split at heq
  · cases heq
    rfl
  · cases heq

theorem mem_saveQRowOpsGo_kind (entryId : String) (origRows : List SurveyGridRowForm) :
    ∀ (ri : Nat) (rs : List SurveyGridRowForm) (op : PlannedOp),
      op ∈ saveQRowOpsGo entryId origRows ri rs →
      isEntryUpdateOrChoiceDelete op = false := by
  intro ri rs
  induction rs generalizing ri with
  | nil =>
    intro op h
    cases h
  | cons r rest ih =>
    intro op h
    simp only [saveQRowOpsGo, List.mem_append] at h
    rcases h with h | h
    · split at h
      · rcases List.mem_singleton.mp h with rfl
        rfl
      · split at h
        · split at h
          · rcases List.mem_singleton.mp h with rfl
            rfl
          · cases h
        · cases h
    · exact ih (ri + 1) op h

theorem append_kind_positions {α : Type} (P Q : α → Bool) (l xs ys : List α)
    (hl : l = xs ++ ys)
    (hys : ∀ a ∈ ys, P a = false) (hxs : ∀ a ∈ xs, Q a = false)
    (i j : Nat) (hi : i < l.length) (hj : j < l.length)
    (hPi : P (l.get ⟨i, hi⟩) = true) (hQj : Q (l.get ⟨j, hj⟩) = true) :
    i < j := by
  subst hl
  have hlen : (xs ++ ys).length = xs.length + ys.length := List.length_append xs ys
  have hilt : i < xs.length := by
    by_contra hge
    push_neg at hge
    have hmem : (xs ++ ys).get ⟨i, hi⟩ ∈ ys := by
      rw [List.get_eq_getElem, List.getElem_append_right hge]
      exact List.getElem_mem _
    rw [hys _ hmem] at hPi
    cases hPi
  have hjge : xs.length ≤ j := by
    by_contra hlt
    push_neg at hlt
    have hmem : (xs ++ ys).get ⟨j, hj⟩ ∈ xs := by
      rw [List.get_eq_getElem, List.getElem_append_left hlt]
      exact List.getElem_mem _
    rw [hxs _ hmem] at hQj
    cases hQj
  omega

/-- C4 (amended): in the single concurrently dispatched first batch of a
question save, the entry update and the deletions of obsolete
server-persisted choices are emitted at strictly earlier positions than
every choice or grid row creation; completion ordering between them is
not enforced, because the whole batch is awaited together and only the
follow-up creations of the second batch wait for it. -/
theorem type_change_emission_order (st : FormState) (sel q : Nat) (w1 w2 : List PlannedOp)
    (h : handleSaveCurrentQuestion st sel q = .waves w1 w2)
    (i j : Nat) (hi : i < w1.length) (hj : j < w1.length)
    (hdel : isEntryUpdateOrChoiceDelete (w1.get ⟨i, hi⟩) = true)
    (hcre : isCreateChoiceOrRowOp (w1.get ⟨j, hj⟩) = true) :
    i < j := by
  unfold handleSaveCurrentQuestion at h
  cases hcur : currentEntryAt st sel q with
  | none =>
    rw [hcur] at h
    cases h
  | some cur =>
    rw [hcur] at h
    by_cases hid : strTruthy cur.id = true
    · simp only [hid, Bool.not_true, Bool.false_eq_true, if_false] at h
      cases hv : validateSurveyEntry cur with
      | cons e es =>
        simp only [hv] at h
        exact SaveQuestionResult.noConfusion h
      | nil =>
        simp only [hv] at h
        rw [SaveQuestionResult.waves.injEq] at h
        obtain ⟨hw1, hw2⟩ := h
        subst hw1
        refine append_kind_positions isEntryUpdateOrChoiceDelete isCreateChoiceOrRowOp _
          (saveQEntryUpdateOps cur (originalEntryAt st sel q) ++
            saveQChoiceDeleteOps cur (originalEntryAt st sel q))
          (saveQChoiceOpsGo (cur.id.getD "")
              ((Option.map SurveyEntryForm.choices (originalEntryAt st sel q)).getD [])
              0 cur.choices ++
            (saveQRowDeleteOps cur (originalEntryAt st sel q) ++
              saveQRowOpsGo (cur.id.getD "")
                ((Option.map SurveyEntryForm.gridRows (originalEntryAt st sel q)).getD [])
                0 cur.gridRows))
          (by simp only [List.append_assoc]) ?_ ?_ i j hi hj hdel hcre
        · intro a ha
          rcases List.mem_append.mp ha with ha | ha
          · exact mem_saveQChoiceOpsGo_kind _ _ 0 _ a ha
          · rcases List.mem_append.mp ha with ha | ha
            · exact mem_saveQRowDeleteOps_kind _ _ a ha
            · exact mem_saveQRowOpsGo_kind _ _ 0 _ a ha
        · intro a ha
          rcases List.mem_append.mp ha with ha | ha
          · exact (mem_saveQEntryUpdateOps_kind _ _ a ha).2
          · exact (mem_saveQChoiceDeleteOps_kind _ _ a ha).2
    · have hid2 : strTruthy cur.id = false := by
        cases hx : strTruthy cur.id
        · rfl
        · exact absurd hx hid
      simp only [hid2, Bool.not_false, if_true] at h
      exact SaveQuestionResult.noConfusion h

/-- New grid column choice 1 of the C4 scenario. -/
def choiceGridNew1 : SurveyChoiceForm :=
  .mk "gc1" (some "A") "Col1" none none none (some false) (some false) none

/-- New grid column choice 2 of the C4 scenario. -/
def choiceGridNew2 : SurveyChoiceForm :=
  .mk "gc2" (some "B") "Col2" none none none (some false) (some false) none

/-- New grid row 1 of the C4 scenario. -/
def rowNew1 : SurveyGridRowForm :=
  { id := none, rowNumber := 1, rowText := "R1", rowImage := none, rowImageFile := none }

/-- New grid row 2 of the C4 scenario. -/
def rowNew2 : SurveyGridRowForm :=
  { id := none, rowNumber := 2, rowText := "R2", rowImage := none, rowImageFile := none }

/-- The C4 working entry: the RADIO question switched to GRID, with the
default new columns and rows. -/
def entryC4cur : SurveyEntryForm :=
  .mk "e1" "Q" (some 1) none none .GRID true [choiceGridNew1, choiceGridNew2]
    [rowNew1, rowNew2] (some false) false none none none none (some "e1")

/-- The C4 snapshot entry: the original RADIO question with two
server-persisted choices. -/
def entryC4orig : SurveyEntryForm :=
  .mk "e1" "Q" (some 1) none none .Radio true [choiceA,
    .mk "cB" (some "B") "No" none none (some "cB") (some false) (some false) none]
    [] (some false) false none none none none (some "e1")

/-- The C4 working section. -/
def sectionC4cur : SurveySectionForm :=
  { title := "Sec", description := none, sectionNumber := some 1,
    entries := [entryC4cur], id := some "s1" }

/-- The C4 snapshot section. -/
def sectionC4orig : SurveySectionForm :=
  { title := "Sec", description := none, sectionNumber := some 1,
    entries := [entryC4orig], id := some "s1" }

/-- The C4 editor state. -/
def stC4 : FormState :=
  { surveyName := "Survey", sections := [sectionC4cur],
    originalSectionsSnapshot := [sectionC4orig], originalSectionsCount := 1,
    originalQuestionCounts := [1] }

/-- The single batch the C4 save dispatches concurrently. -/
def wave1C4 : List PlannedOp :=
  [.updateEntry "e1"
      { question := "Q", questionNumber := some 1, questionType := .GRID,
        isRequired := true, questionImageFile := none },
    .deleteChoice "cA", .deleteChoice "cB",
    .addChoice "e1" (choiceOpOf 0 choiceGridNew1),
    .addChoice "e1" (choiceOpOf 1 choiceGridNew2),
    .addGridRow "e1" (rowOpOf 0 rowNew1),
    .addGridRow "e1" (rowOpOf 1 rowNew2)]

/-- C4 counterexample: for the RADIO-to-GRID change, the entry update, the
two obsolete-choice deletions, the choice creations and the grid row
creations are all emitted into one batch that is dispatched concurrently
and awaited as a whole; the deletions and the entry update are not
completed before the creations are dispatched, contradicting the claimed
strict sequencing. -/
theorem type_change_single_wave :
    handleSaveCurrentQuestion stC4 0 0 = .waves wave1C4 [] ∧
    isEntryUpdateOrChoiceDelete (wave1C4.get ⟨1, by decide⟩) = true ∧
    isCreateChoiceOrRowOp (wave1C4.get ⟨5, by decide⟩) = true :=
  ⟨rfl, rfl, rfl⟩

/-- Witness for the amended C4 at the concrete scenario: the deletion at
position 1 precedes the creation at position 3. -/
theorem type_change_emission_order_witness : (1 : Nat) < 3 :=
  type_change_emission_order stC4 0 0 wave1C4 [] rfl 1 3 (by decide) (by decide) rfl rfl

/-!
Claim C6: a new follow-up on a new choice of an existing parent entry.
-/

/-- The client-reference addEntry payload of the second follow-up branch. -/
def clientRefAddEntryData (cur : SurveyEntryForm) (c : SurveyChoiceForm)
    (f : SurveyEntryForm) (qn : Nat) : AddEntryData :=
  { clientId := f.clientId
    question := f.question
    questionNumber := some qn
    questionType := f.questionType
    isRequired := f.isRequired
    isFollowUp := true
    parentQuestionClientId := some cur.clientId
    triggerChoiceClientIds := some [c.clientId]
    parentQuestionId := none
    triggerChoiceIds := none
    questionImageFile := f.questionImageFile
    choices := choiceOpsGo 0 f.choices
    gridRows := rowOpsGo 0 f.gridRows }

theorem saveQFollowUpOpsGo_mem_clientRef (sectionId : String) (cur : SurveyEntryForm)
    (nextQ : Nat) :
    ∀ (counter : Nat) (cs : List SurveyChoiceForm) (c : SurveyChoiceForm)
      (f : SurveyEntryForm), c ∈ cs → boolTruthy c.hasFollowUp = true →
      c.followUpQuestion = some f → strTruthy f.id = false → strTruthy c.id = false →
      ∃ d : AddEntryData,
        PlannedOp.addEntry sectionId d ∈ saveQFollowUpOpsGo sectionId cur nextQ counter cs ∧
        d.clientId = f.clientId ∧ d.isFollowUp = true ∧
        d.parentQuestionClientId = some cur.clientId ∧
        d.triggerChoiceClientIds = some [c.clientId] ∧
        d.parentQuestionId = none ∧ d.triggerChoiceIds = none := by
  intro counter cs
  induction cs generalizing counter with
  | nil =>
    intro c f hc
    cases hc
  | cons c0 rest ih =>
    intro c f hc hb hf hfid hcid
    rcases List.mem_cons.mp hc with rfl | hmem
    · refine ⟨clientRefAddEntryData cur c f (nextQ + counter),
        ?_, rfl, rfl, rfl, rfl, rfl, rfl⟩
      simp only [saveQFollowUpOpsGo, hb, hf]
      rw [if_neg (by simp [hfid, hcid]), if_pos (by simp [hfid, hcid])]
      exact List.mem_cons_self _ _
    · cases hb0 : boolTruthy c0.hasFollowUp with
      | false =>
        obtain ⟨d, hd, p1, p2, p3, p4, p5, p6⟩ := ih counter c f hmem hb hf hfid hcid
        refine ⟨d, ?_, p1, p2, p3, p4, p5, p6⟩
        cases hq0 : c0.followUpQuestion with
        | none =>
          simp only [saveQFollowUpOpsGo, hb0, hq0]
          exact hd
        | some f0 =>
          simp only [saveQFollowUpOpsGo, hb0, hq0]
          exact hd
      | true =>
        cases hq0 : c0.followUpQuestion with
        | none =>
          obtain ⟨d, hd, p1, p2, p3, p4, p5, p6⟩ := ih counter c f hmem hb hf hfid hcid
          refine ⟨d, ?_, p1, p2, p3, p4, p5, p6⟩
          simp only [saveQFollowUpOpsGo, hb0, hq0]
          exact hd
        | some f0 =>
          by_cases h1 : (!strTruthy f0.id && strTruthy c0.id && strTruthy cur.id) = true
          · obtain ⟨d, hd, p1, p2, p3, p4, p5, p6⟩ := ih (counter + 1) c f hmem hb hf hfid hcid
            refine ⟨d, ?_, p1, p2, p3, p4, p5, p6⟩
            simp only [saveQFollowUpOpsGo, hb0, hq0]
            rw [if_pos h1]
            exact List.mem_cons_of_mem _ hd
          · by_cases h2 : (!strTruthy f0.id && !strTruthy c0.id) = true
            · obtain ⟨d, hd, p1, p2, p3, p4, p5, p6⟩ := ih (counter + 1) c f hmem hb hf hfid hcid
              refine ⟨d, ?_, p1, p2, p3, p4, p5, p6⟩
              simp only [saveQFollowUpOpsGo, hb0, hq0]
              rw [if_neg h1, if_pos h2]
              exact List.mem_cons_of_mem _ hd
            · obtain ⟨d, hd, p1, p2, p3, p4, p5, p6⟩ := ih counter c f hmem hb hf hfid hcid
              refine ⟨d, ?_, p1, p2, p3, p4, p5, p6⟩
              simp only [saveQFollowUpOpsGo, hb0, hq0]
              rw [if_neg h1, if_neg h2]
              exact hd

/-- C6 (amended): for a new follow-up question on a choice that is new in
the same save while the parent entry already exists on the server, the
save does not surface any sequencing error: it creates the follow-up
through the client-reference branch, with parentQuestionClientId set to
the parent entry clientId and triggerChoiceClientIds set to the new
choice clientId. -/
theorem mixed_followUp_created_via_clientIds (st : FormState) (sel q : Nat)
    (cur f : SurveyEntryForm) (c : SurveyChoiceForm)
    (hcur : currentEntryAt st sel q = some cur)
    (hid : strTruthy cur.id = true)
    (hval : validateSurveyEntry cur = [])
    (hc : c ∈ cur.choices)
    (hhf : boolTruthy c.hasFollowUp = true)
    (hfu : c.followUpQuestion = some f)
    (hcid : strTruthy c.id = false)
    (hfid : strTruthy f.id = false) :
    ∃ w1 w2, handleSaveCurrentQuestion st sel q = .waves w1 w2 ∧
      ∃ d : AddEntryData, PlannedOp.addEntry (sectionIdAt st sel) d ∈ w2 ∧
        d.clientId = f.clientId ∧ d.isFollowUp = true ∧
        d.parentQuestionClientId = some cur.clientId ∧
        d.triggerChoiceClientIds = some [c.clientId] ∧
        d.parentQuestionId = none ∧ d.triggerChoiceIds = none := by
  refine ⟨saveQEntryUpdateOps cur (originalEntryAt st sel q) ++
      saveQChoiceDeleteOps cur (originalEntryAt st sel q) ++
      saveQChoiceOpsGo (cur.id.getD "")
        ((Option.map SurveyEntryForm.choices (originalEntryAt st sel q)).getD []) 0
        cur.choices ++
      saveQRowDeleteOps cur (originalEntryAt st sel q) ++
      saveQRowOpsGo (cur.id.getD "")
        ((Option.map SurveyEntryForm.gridRows (originalEntryAt st sel q)).getD []) 0
        cur.gridRows,
    saveQFollowUpOpsGo (sectionIdAt st sel) cur (getNextQuestionNumber st.sections) 0
      cur.choices, ?_, ?_⟩
  · unfold handleSaveCurrentQuestion
    rw [hcur]
    simp only [hid, Bool.not_true, Bool.false_eq_true, if_false, hval]
  · exact saveQFollowUpOpsGo_mem_clientRef (sectionIdAt st sel) cur
      (getNextQuestionNumber st.sections) 0 cur.choices c f hc hhf hfu hfid hcid

/-- The new follow-up question of the C6 scenario. -/
def followUpC6 : SurveyEntryForm :=
  .mk "f1" "FQ" none none none .TEXT false [] [] none true
    (some "e1") (some ["c-new"]) none none none

/-- The new choice of the C6 scenario, created in the same save and
carrying the new follow-up. -/
def choiceNewC6 : SurveyChoiceForm :=
  .mk "c-new" (some "B") "B" none none none (some false) (some true) (some followUpC6)

/-- The C6 working entry: an existing server-persisted question with one
existing choice and one new choice carrying a new follow-up. -/
def entryC6 : SurveyEntryForm :=
  .mk "e1" "Q" (some 1) none none .Radio true [choiceA, choiceNewC6] []
    (some false) false none none none none (some "e1")

/-- The C6 snapshot entry, before the new choice was added. -/
def entryC6orig : SurveyEntryForm :=
  .mk "e1" "Q" (some 1) none none .Radio true [choiceA] []
    (some false) false none none none none (some "e1")

/-- The C6 working section. -/
def sectionC6cur : SurveySectionForm :=
  { title := "Sec", description := none, sectionNumber := some 1,
    entries := [entryC6], id := some "s1" }

/-- The C6 snapshot section. -/
def sectionC6orig : SurveySectionForm :=
  { title := "Sec", description := none, sectionNumber := some 1,
    entries := [entryC6orig], id := some "s1" }

/-- The C6 editor state. -/
def stC6 : FormState :=
  { surveyName := "Survey", sections := [sectionC6cur],
    originalSectionsSnapshot := [sectionC6orig], originalSectionsCount := 1,
    originalQuestionCounts := [1] }

/-- C6 counterexample: the parent entry exists on the server and the
triggering choice is new in the same save, yet the save surfaces no
sequencing error: it plans the choice creation and then creates the
follow-up with client-side reference identifiers. -/
theorem mixed_followUp_no_error :
    handleSaveCurrentQuestion stC6 0 0
      = .waves [.addChoice "e1" (choiceOpOf 1 choiceNewC6)]
          [.addEntry "s1" (clientRefAddEntryData entryC6 choiceNewC6 followUpC6 3)] :=
  rfl

/-- Witness for the amended C6 at the concrete state. -/
theorem mixed_followUp_created_via_clientIds_witness :
    ∃ w1 w2, handleSaveCurrentQuestion stC6 0 0 = .waves w1 w2 ∧
      ∃ d : AddEntryData, PlannedOp.addEntry (sectionIdAt stC6 0) d ∈ w2 ∧
        d.clientId = followUpC6.clientId ∧ d.isFollowUp = true ∧
        d.parentQuestionClientId = some entryC6.clientId ∧
        d.triggerChoiceClientIds = some [choiceNewC6.clientId] ∧
        d.parentQuestionId = none ∧ d.triggerChoiceIds = none :=
  mixed_followUp_created_via_clientIds stC6 0 0 entryC6 followUpC6 choiceNewC6
    rfl rfl rfl (by simp [entryC6, SurveyEntryForm.choices]) rfl rfl rfl rfl
